import Mathlib

/-!
Verification development for the copidock comprehensive snapshot synthesis
pipeline.  Python sources are shallowly embedded as executable Lean
definitions; file system access, subprocess execution and regular
expression matching are abstracted as explicit parameters, as noted at
each definition.  All Python strings are modelled as Lean `String`, with
character-list based helpers mirroring the Python string methods used by
the code (the built-in `String` operations are byte-position based and do
not reduce inside the kernel).
-/

namespace Copidock

/-! ## Python string primitives (character-list based) -/

/-- Model of Python `len(s)` (number of characters). -/
def pyLen (s : String) : Nat := s.data.length

/-- Model of Python slicing from the start, `s[:n]`. -/
def pySlice (s : String) (n : Nat) : String := String.mk (s.data.take n)

/-- Model of Python `s.lower()` (ASCII case folding suffices for the
keyword tables of this repository). -/
def pyLower (s : String) : String := String.mk (s.data.map Char.toLower)

/-- Model of Python `s.strip()`: drop leading and trailing whitespace. -/
def pyStripChars (l : List Char) : List Char :=
  ((l.dropWhile Char.isWhitespace).reverse.dropWhile Char.isWhitespace).reverse

/-- Model of Python `s.strip()` on strings. -/
def pyStrip (s : String) : String := String.mk (pyStripChars s.data)

/-- Membership in the punctuation set of `rstrip('.,;:')`. -/
def isTrailPunct (c : Char) : Bool := c == '.' || c == ',' || c == ';' || c == ':'

/-- Model of Python `s.rstrip('.,;:')`. -/
def pyRstripPunct (s : String) : String :=
  String.mk ((s.data.reverse.dropWhile isTrailPunct).reverse)

/-- Decidable list prefix test (character lists). -/
def isPre : List Char → List Char → Bool
  | [], _ => true
  | _ :: _, [] => false
  | a :: as, b :: bs => a == b && isPre as bs

/-- Decidable contiguous-substring test; `hasInfix n h` models Python
`n in h` for strings.  The empty needle is contained in every string,
as in Python. -/
def hasInfix (needle : List Char) : List Char → Bool
  | [] => needle.isEmpty
  | c :: rest => isPre needle (c :: rest) || hasInfix needle rest

/-- Model of the Python containment test `needle in hay` on strings. -/
def strContains (hay needle : String) : Bool := hasInfix needle.data hay.data

/-- Model of Python `s.endswith(p)`, via reversed character lists. -/
def strEndsWith (s p : String) : Bool := isPre p.data.reverse s.data.reverse

/-- Drop a suffix from a string (used to model `key.replace('_append','')`
and `key.replace('_override','')` on keys where the pattern occurs only as
the final suffix, which holds for every modifier key shape the loader
understands). -/
def dropSuffixStr (s p : String) : String :=
  if strEndsWith s p then String.mk (s.data.take (s.data.length - p.data.length)) else s

/-- Strict lexicographic comparison of character lists by code point,
the order Python uses to compare strings. -/
def charsLt : List Char → List Char → Bool
  | [], [] => false
  | [], _ :: _ => true
  | _ :: _, [] => false
  | a :: as, b :: bs =>
    if a.toNat < b.toNat then true
    else if b.toNat < a.toNat then false
    else charsLt as bs

/-- Model of Python string comparison `a < b`. -/
def strLt (a b : String) : Bool := charsLt a.data b.data

/-- Model of Python `'\n'.join(l)`. -/
def joinNL (l : List String) : String := String.intercalate "\n" l

/-- Model of Python `str.title()` for the ASCII text it is applied to:
an alphabetic character is uppercased when the previous character is not
alphabetic and lowercased otherwise. -/
def pyTitleChars : List Char → Bool → List Char
  | [], _ => []
  | c :: rest, prevAlpha =>
    if c.isAlpha then
      (if prevAlpha then c.toLower else c.toUpper) :: pyTitleChars rest true
    else
      c :: pyTitleChars rest false

/-- Model of Python `s.title()`. -/
def pyTitle (s : String) : String := String.mk (pyTitleChars s.data false)

/-- Replace every occurrence of a character (models `s.replace('_',' ')`). -/
def replaceChar (s : String) (a b : Char) : String :=
  String.mk (s.data.map (fun c => if c = a then b else c))

/-- Python `enumerate(lines, 1)`: pair each element with its index,
counting from `n`. -/
def enumFrom (n : Nat) : List α → List (Nat × α)
  | [] => []
  | x :: xs => (n, x) :: enumFrom (n + 1) xs

/-- First-occurrence deduplication.  The Python code builds `list(set(xs))`;
CPython leaves the resulting order unspecified, and every use in this
repository either sorts the result afterwards or does not depend on the
order, so the model fixes the first-occurrence order. -/
def dedupFirst : List String → List String
  | [] => []
  | x :: xs => x :: (dedupFirst xs).filter (fun y => y ≠ x)

/-! ## Repository scanner: gather.py

The file system is abstracted as a partial map from repository-relative
paths to `DiskFile` records; `none` models a path that does not exist (or
is not a regular file).  The `repo_root` argument of the Python functions
is folded into this map. -/

/-- Observable state of one on-disk file.  `binaryProbe = none` models a
read failure inside `is_binary_file` (treated as binary); `some b` is the
null-byte test on the first 1KB.  `content = none` models a file whose text
could not be decoded at all; `some lines` is the decoded content split on
newline, as `mine_open_questions` consumes it. -/
structure DiskFile where
  size : Nat
  binaryProbe : Option Bool
  content : Option (List String)
deriving DecidableEq

/-- Abstract file system. -/
def FS := String → Option DiskFile

/-- Embedding of `SKIP_EXTENSIONS` from gather.py. -/
def SKIP_EXTENSIONS : List String :=
  [".log", ".cache", ".tmp", ".lock", ".pyc", ".pyo", ".pyd", ".so"]

/-- Embedding of `SKIP_DIRECTORIES` from gather.py. -/
def SKIP_DIRECTORIES : List String :=
  ["node_modules", ".git", "__pycache__", ".pytest_cache", "venv", ".venv", "dist", "build"]

/-- Model of `pathlib.Path(path).suffix`: the extension (with dot) of the
final path component; a dot in position zero of the component does not
start an extension. -/
def pathSuffix (path : String) : String :=
  let base := (path.data.reverse.takeWhile (fun c => c ≠ '/')).reverse
  let revBase := base.reverse
  let ext := revBase.takeWhile (fun c => c ≠ '.')
  if ext.length + 1 < base.length ∧ ext.length < revBase.length then
    String.mk ('.' :: ext.reverse)
  else
    ""

/-- Embedding of `is_binary_file` (gather.py): null byte in the first 1KB,
and any read failure is treated as binary. -/
def is_binary_file (fs : FS) (filepath : String) : Bool :=
  match fs filepath with
  | none => true
  | some f =>
    match f.binaryProbe with
    | none => true
    | some b => b

/-- Embedding of `should_skip_file` (gather.py). -/
def should_skip_file (path : String) : Bool :=
  SKIP_DIRECTORIES.any (fun d => strContains path d)
  || SKIP_EXTENSIONS.contains (pyLower (pathSuffix path))

/-- Embedding of `get_file_size_estimate` (gather.py): `stat` size divided
by 4; any failure (in particular a missing file) yields 0. -/
def get_file_size_estimate (fs : FS) (filepath : String) : Nat :=
  match fs filepath with
  | some f => f.size / 4
  | none => 0

/-- Embedding of `filter_relevant_files` (gather.py). -/
def filter_relevant_files (fs : FS) (file_paths : List String) : List String :=
  file_paths.filter (fun path =>
    !should_skip_file path && (fs path).isSome && !is_binary_file fs path)

/-- Stable insertion of a `(path, size)` pair: the element goes after every
earlier element whose key is not larger.  Inserting the elements of a list
front to back with this operation computes the unique stable ascending
reordering, which is what CPython `list.sort(key=lambda x: x[1])`
produces. -/
def insertBySize (x : String × Nat) : List (String × Nat) → List (String × Nat)
  | [] => [x]
  | y :: ys => if x.2 < y.2 then x :: y :: ys else y :: insertBySize x ys

/-- Stable ascending sort by the size component (see `insertBySize`). -/
def sortBySize : List (String × Nat) → List (String × Nat)
  | [] => []
  | x :: xs => insertBySize x (sortBySize xs)

/-- The sorted `paths_with_size` list that `enforce_budget` iterates. -/
def sortedCandidates (fs : FS) (file_paths : List String) : List (String × Nat) :=
  sortBySize (file_paths.map (fun p => (p, get_file_size_estimate fs p)))

/-- The accepting loop of `enforce_budget`: accept while the running total
stays within budget, and stop at the first file that would exceed it
(`break`). -/
def budgetLoop (max_tokens : Nat) : List (String × Nat) → Nat → List String
  | [], _ => []
  | (path, estimated_tokens) :: rest, total_tokens =>
    if total_tokens + estimated_tokens ≤ max_tokens then
      path :: budgetLoop max_tokens rest (total_tokens + estimated_tokens)
    else
      []

/-- Embedding of `enforce_budget` (gather.py). -/
def enforce_budget (fs : FS) (file_paths : List String) (max_tokens : Nat) : List String :=
  budgetLoop max_tokens (sortedCandidates fs file_paths) 0

/-- Concrete two-file file system used to instantiate the scanner
theorems: `a` has 240 bytes (60 estimated tokens) and `b` has 200 bytes
(50 estimated tokens). -/
def exFS1 : FS := fun p =>
  if p = "a" then some ⟨240, some false, none⟩
  else if p = "b" then some ⟨200, some false, none⟩
  else none

/-! ## Development context analysis: cli/synthesis/analysis.py -/

/-- Keyword table of the `api` branch of `analyze_file_patterns`. -/
def apiKeywords : List String := ["api/", "endpoints/", "routes/", "controllers/"]

/-- Keyword table of the `frontend` branch of `analyze_file_patterns`. -/
def frontendKeywords : List String :=
  ["frontend/", "ui/", "components/", "views/", ".vue", ".jsx", ".tsx"]

/-- Keyword table of the `database` branch of `analyze_file_patterns`. -/
def databaseKeywords : List String := ["migration", "schema", "models/", "database/"]

/-- Keyword table of the `tests` branch of `analyze_file_patterns`. -/
def testsKeywords : List String := ["test", "spec", "__tests__"]

/-- Keyword table of the `config` branch of `analyze_file_patterns`. -/
def configKeywords : List String := ["config", "settings", ".env", "docker", "deploy"]

/-- Keyword table of the `docs` branch of `analyze_file_patterns`. -/
def docsKeywords : List String := ["readme", "docs/", ".md", "documentation"]

/-- The per-file classification of `analyze_file_patterns`: first-match-wins
over the keyword tables against the lower-cased path, defaulting to
`other`. -/
def classifyFile (file_path : String) : String :=
  let path_lower := pyLower file_path
  if apiKeywords.any (fun kw => strContains path_lower kw) then "api"
  else if frontendKeywords.any (fun kw => strContains path_lower kw) then "frontend"
  else if databaseKeywords.any (fun kw => strContains path_lower kw) then "database"
  else if testsKeywords.any (fun kw => strContains path_lower kw) then "tests"
  else if configKeywords.any (fun kw => strContains path_lower kw) then "config"
  else if docsKeywords.any (fun kw => strContains path_lower kw) then "docs"
  else "other"

/-- The initial `patterns` dictionary of `analyze_file_patterns`, in
insertion order. -/
def initPatterns : List (String × Nat) :=
  [("api", 0), ("frontend", 0), ("database", 0), ("tests", 0), ("config", 0),
   ("docs", 0), ("other", 0)]

/-- The seven category keys, in the insertion order of the dictionary. -/
def keys7 : List String :=
  ["api", "frontend", "database", "tests", "config", "docs", "other"]

/-- Model of `patterns[file_type] += 1`: a dictionary increment that keeps
the insertion order. -/
def bumpCount (patterns : List (String × Nat)) (k : String) : List (String × Nat) :=
  patterns.map (fun p => if p.1 = k then (p.1, p.2 + 1) else p)

/-- Return value of `analyze_file_patterns`: the ordered count dictionary,
the `file_details` list of `(path, type)` records, and `total_files`. -/
structure FileAnalysis where
  patterns : List (String × Nat)
  details : List (String × String)
  total_files : Nat
deriving DecidableEq

/-- Embedding of `analyze_file_patterns` (analysis.py). -/
def analyze_file_patterns (file_paths : List String) : FileAnalysis :=
  let fin := file_paths.foldl
    (fun st path =>
      let file_type := classifyFile path
      (bumpCount st.1 file_type, st.2 ++ [(path, file_type)]))
    (initPatterns, ([] : List (String × String)))
  ⟨fin.1, fin.2, file_paths.length⟩

/-- Model of Python `max(patterns.values())`: the fold keeps the largest
count, and the base 0 is neutral because the dictionary always carries the
seven non-negative counts. -/
def maxCount (patterns : List (String × Nat)) : Nat :=
  (patterns.map Prod.snd).foldr max 0

/-- The scanning loop of `determine_work_area`: the first area in
dictionary order whose count equals the maximum and which is not
`other`. -/
def findArea (m : Nat) : List (String × Nat) → Option String
  | [] => none
  | (area, count) :: rest =>
    if count = m ∧ area ≠ "other" then some area else findArea m rest

/-- Embedding of `determine_work_area` (analysis.py). -/
def determine_work_area (file_analysis : FileAnalysis) : String :=
  let max_files := maxCount file_analysis.patterns
  if max_files = 0 then "general"
  else
    match findArea max_files file_analysis.patterns with
    | some area => area
    | none => "general"

/-! ## Annotation miner: mine_open_questions (cli/synthesis/analysis.py)

The eight marker regexes (each matching the keyword or its `@keyword`
form, an optional colon, and a captured run of 3 to 100 characters, case
insensitively) are abstracted as a `Matcher`: for a marker type name and a
line (or commit text) it returns the list of captured group strings in
match order, exactly what `re.findall(pattern, line, re.IGNORECASE)`
produces.  Everything downstream of the regex engine is embedded
concretely. -/

/-- Abstract regex engine: marker type name and scanned text to captured
strings. -/
def Matcher := String → String → List String

/-- One mined annotation entry, as stored in `questions_by_type`. -/
structure Question where
  text : String
  file : String
  line : Nat
  context : String
deriving DecidableEq

/-- A parsed commit record as consumed by the miner (`subject`, `body`,
`hash` keys of the commit dictionaries). -/
structure CommitRec where
  hash : String
  subject : String
  body : String
deriving DecidableEq

/-- The dictionary insertion order of the `patterns` table in
`mine_open_questions`. -/
def patternTypes : List String :=
  ["TODO", "FIXME", "QUESTION", "TBD", "HACK", "XXX", "NOTE", "REVIEW"]

/-- The fixed rendering priority order (`priority_types`). -/
def priorityTypes : List String :=
  ["FIXME", "TODO", "QUESTION", "REVIEW", "HACK", "TBD", "XXX", "NOTE"]

/-- Embedding of `match.strip().rstrip('.,;:')`. -/
def cleanMatch (m : String) : String := pyRstripPunct (pyStrip m)

/-- Embedding of the long-line guard: lines over 200 characters are cut to
200 characters plus an ellipsis before pattern matching. -/
def truncLine (line : String) : String :=
  if 200 < pyLen line then pySlice line 200 ++ "..." else line

/-- Embedding of the context snippet: `line.strip()[:80]` plus an ellipsis
when the stripped line exceeds 80 characters. -/
def stripContext (line : String) : String :=
  pySlice (pyStrip line) 80 ++ (if 80 < pyLen (pyStrip line) then "..." else "")

/-- Annotations captured from one (already truncated) file line: every
regex capture whose cleaned text is longer than 5 characters becomes an
entry carrying the 1-based line number and the context snippet. -/
def lineQuestions (matcher : Matcher) (ptype : String) (file_path : String)
    (line_num : Nat) (rawLine : String) : List Question :=
  let line := truncLine rawLine
  (matcher ptype line).filterMap (fun m =>
    let clean_match := cleanMatch m
    if 5 < pyLen clean_match then
      some ⟨clean_match, file_path, line_num, stripContext line⟩
    else
      none)

/-- Annotations captured from one candidate file: missing or unreadable
files and files over 2MB contribute nothing, otherwise every line is
scanned with 1-based numbering. -/
def fileQuestions (fs : FS) (matcher : Matcher) (ptype : String)
    (file_path : String) : List Question :=
  match fs file_path with
  | none => []
  | some f =>
    if 2 * 1024 * 1024 < f.size then []
    else
      match f.content with
      | none => []
      | some lines =>
        (enumFrom 1 lines).flatMap (fun p => lineQuestions matcher ptype file_path p.1 p.2)

/-- Annotations of one marker type over the first 15 candidate files. -/
def scanFileQuestions (fs : FS) (matcher : Matcher) (ptype : String)
    (file_paths : List String) : List Question :=
  (file_paths.take 15).flatMap (fileQuestions fs matcher ptype)

/-- Annotations of one marker type mined from commit subjects and bodies:
line number 0 and the abbreviated commit hash as source. -/
def commitQuestions (matcher : Matcher) (ptype : String)
    (commits : List CommitRec) : List Question :=
  commits.flatMap (fun c =>
    (matcher ptype (c.subject ++ " " ++ c.body)).filterMap (fun m =>
      let clean_match := cleanMatch m
      if 5 < pyLen clean_match then
        some ⟨clean_match, "Commit " ++ pySlice c.hash 8, 0, c.subject⟩
      else
        none))

/-- The full `questions_by_type` entry for one marker type (files first,
then commits, as the two loops of the source run in that order). -/
def questionsFor (fs : FS) (matcher : Matcher) (file_paths : List String)
    (commits : List CommitRec) (ptype : String) : List Question :=
  scanFileQuestions fs matcher ptype file_paths ++ commitQuestions matcher ptype commits

/-- Stable insertion by source path (see `insertBySize`); CPython
`questions.sort(key=lambda x: x['file'])` is the stable ascending sort by
that key. -/
def insertByFile (x : Question) : List Question → List Question
  | [] => [x]
  | y :: ys => if strLt x.file y.file then x :: y :: ys else y :: insertByFile x ys

/-- Stable ascending sort by source path. -/
def sortByFile : List Question → List Question
  | [] => []
  | x :: xs => insertByFile x (sortByFile xs)

/-- The inner rendering loop over one type's (already sorted and
truncated) entry list: each entry is numbered `count + 1`, shows
`file:line`, and repeats the context when it differs from the text and is
non-blank; the loop breaks once the global count reaches 12. -/
def emitEntries : List Question → Nat → List String × Nat
  | [], count => ([], count)
  | q :: rest, count =>
    if 12 ≤ count then ([], count)
    else
      let entry :=
        [toString (count + 1) ++ ". **" ++ q.text ++ "**",
         "   - *" ++ q.file ++ ":" ++ toString q.line ++ "*"]
        ++ (if q.context ≠ q.text ∧ pyStrip q.context ≠ "" then
              ["   - Context: `" ++ q.context ++ "`"] else [])
        ++ [""]
      let r := emitEntries rest (count + 1)
      (entry ++ r.1, r.2)

/-- The outer rendering loop over marker types in priority order: a type
section is emitted only while the type has entries and the global count is
below 12, and at most `min 4 (12 - count)` of its path-sorted entries are
shown. -/
def renderLoop (qbt : String → List Question) : List String → Nat → List String × Nat
  | [], count => ([], count)
  | qtype :: rest, count =>
    let questions := qbt qtype
    if questions ≠ [] ∧ count < 12 then
      let sorted := sortByFile questions
      let type_limit := min 4 (12 - count)
      let e := emitEntries (sorted.take type_limit) count
      let r := renderLoop qbt rest e.2
      (("### " ++ qtype ++ "s\n") :: e.1 ++ r.1, r.2)
    else
      renderLoop qbt rest count

/-- Specification-side recount of how many entries each type section of
`renderLoop` contributes, in priority order. -/
def contributionsLoop (qbt : String → List Question) : List String → Nat → List Nat
  | [], _ => []
  | qtype :: rest, count =>
    if qbt qtype ≠ [] ∧ count < 12 then
      let n := min (min 4 (12 - count)) (qbt qtype).length
      n :: contributionsLoop qbt rest (count + n)
    else
      0 :: contributionsLoop qbt rest count

/-- The fixed placeholder returned when no annotation was found anywhere. -/
def noQuestionsPlaceholder : String :=
  "## Open Questions\n\nNo open questions found in recent changes."

/-- Embedding of `mine_open_questions` (analysis.py): scan, then render
with the global cap of 12, the per-type cap of 4, and the trailing
`... and N more` note when the true count exceeds the rendered count. -/
def mine_open_questions (fs : FS) (matcher : Matcher) (file_paths : List String)
    (commits : List CommitRec) : String :=
  let qbt := questionsFor fs matcher file_paths commits
  if patternTypes.all (fun t => (qbt t).isEmpty) then
    noQuestionsPlaceholder
  else
    let r := renderLoop qbt priorityTypes 0
    let total_questions := (patternTypes.map (fun t => (qbt t).length)).sum
    joinNL (("## Open Questions\n" :: r.1)
      ++ (if r.2 < total_questions then
            ["*... and " ++ toString (total_questions - r.2) ++ " more questions found*"]
          else
            []))

/-- Concrete one-file file system for the miner witnesses. -/
def fsW : FS := fun p =>
  if p = "f.py" then some ⟨100, some false, some ["# TODO: refactor this later"]⟩
  else none

/-- Concrete matcher for the miner witnesses: five captures of the TODO
pattern on the single line of `fsW`. -/
def matcherW : Matcher := fun ptype line =>
  if ptype = "TODO" ∧ line = "# TODO: refactor this later" then
    ["refactor this later", "second entry", "third entry", "fourth entry", "fifth entry"]
  else []

/-- File system with no files at all. -/
def fs0 : FS := fun _ => none

/-- Matcher that never matches. -/
def matcher0 : Matcher := fun _ _ => []

/-- The annotation entry mined from the single line of `fsW` by the first
capture of `matcherW` (the line is under 200 characters and its stripped
form is under 80 characters, so it is its own context snippet). -/
def qW : Question :=
  ⟨"refactor this later", "f.py", 1, "# TODO: refactor this later"⟩

/-! ## Template loader: templates/loader.py

Persona YAML documents are modelled as `PersonaConfig` records whose
fields default to the `persona.get(key, default)` values the consuming
code supplies, so a document with a missing key is modelled by the
field holding that default.  The personas directory is abstracted as a
`PersonaStore` map (`none` is a missing template file; YAML documents
that fail to parse also raise a `ValueError` in the source and are folded
into the same missing case, which no claim distinguishes).  The
process-wide `_persona_cache` dictionary is threaded explicitly as a
`LoaderState`. -/

/-- A template variable value: the loader manipulates strings and lists
of strings. -/
inductive Value where
  | s : String → Value
  | l : List String → Value
deriving DecidableEq

/-- An insertion-ordered string-keyed dictionary of template variables. -/
abbrev Vars := List (String × Value)

/-- Dictionary lookup (first matching key). -/
def lookupKey {α : Type} : List (String × α) → String → Option α
  | [], _ => none
  | (k, v) :: rest, key => if k = key then some v else lookupKey rest key

/-- Dictionary assignment `d[key] = v`: replace in place, keeping the
insertion position, or append a new key at the end. -/
def setKey {α : Type} : List (String × α) → String → α → List (String × α)
  | [], key, v => [(key, v)]
  | (k, v0) :: rest, key, v =>
    if k = key then (k, v) :: rest else (k, v0) :: setKey rest key v

/-- One `development_contexts[work_area]` overlay of a persona. -/
structure DevCtx where
  specific_guidelines : List String := []
  risk_factors : List String := []
deriving DecidableEq

/-- A parsed persona document.  Field defaults are the `get` defaults of
the consuming code paths. -/
structure PersonaConfig where
  name : String := "Developer"
  role : String := "Senior Backend Developer"
  context : String := "working on development tasks"
  guidelines_do : List String := []
  guidelines_dont : List String := []
  task_priorities : List String := []
  risk_factors : List String := []
  focus_areas : List String := []
  development_contexts : List (String × DevCtx) := []
  template_rules : List (String × Vars) := []
  goal_modifiers : List (String × Vars) := []
deriving DecidableEq

/-- The personas directory: parsed persona document per template name. -/
def PersonaStore := String → Option PersonaConfig

/-- The process-wide `_persona_cache`. -/
abbrev LoaderState := List (String × PersonaConfig)

/-- Embedding of `TemplateLoader.load_persona`: answer from the cache, or
read the store, populating the cache; a missing template raises a
`ValueError` naming the template (quoting punctuation elided). -/
def load_persona (store : PersonaStore) (cache : LoaderState)
    (persona_name : String) : Except String (PersonaConfig × LoaderState) :=
  match lookupKey cache persona_name with
  | some persona_config => .ok (persona_config, cache)
  | none =>
    match store persona_name with
    | none => .error ("Persona template " ++ persona_name ++ " not found")
    | some persona_config => .ok (persona_config, cache ++ [(persona_name, persona_config)])

/-- The `enhanced_context` dictionary: the CLI-supplied keys the synthesis
pipeline reads. -/
structure EnhancedContext where
  stage : Option String := none
  focus : Option String := none
  output : Option String := none
  constraints : Option String := none
  domain : Option String := none
deriving DecidableEq

/-- The `thread_data` dictionary. -/
structure ThreadData where
  goal : Option String := none
  repo : Option String := none
  branch : Option String := none
deriving DecidableEq

/-- Python truthiness of an optional string (`None` and the empty string
are falsy). -/
def truthy : Option String → Bool
  | none => false
  | some s => s ≠ ""

/-- The `category_priority` list of `resolve_template_vars`. -/
def category_priority : List String :=
  ["Infrastructure", "Backend/Lambda", "Frontend", "Tests", "Configuration", "Documentation"]

/-- The rule-selection scan of `resolve_template_vars`: the first priority
category present both in the file categories and in the template rules. -/
def findMatchedRule (template_rules : List (String × Vars))
    (file_categories : List String) : Option Vars :=
  match category_priority.find?
      (fun c => file_categories.contains c && (lookupKey template_rules c).isSome) with
  | some c => lookupKey template_rules c
  | none => none

/-- Python `s.split(sep)` for a one-character separator (empty chunks
included). -/
def splitCharAux (sep : Char) : List Char → List Char → List (List Char)
  | [], acc => [acc.reverse]
  | c :: rest, acc =>
    if c = sep then acc.reverse :: splitCharAux sep rest []
    else splitCharAux sep rest (c :: acc)

/-- Python `s.split(sep)` on strings, one-character separator. -/
def splitOnChar (sep : Char) (s : String) : List String :=
  (splitCharAux sep s.data []).map String.mk

/-- Python `pattern.split('|')`. -/
def splitPipe (s : String) : List String := splitOnChar '|' s

/-- Python `s.split(sep)` for a multi-character separator: leftmost,
non-overlapping.  The fuel argument (list length plus one at the top
call) makes the recursion structural; every step consumes at least one
character, so the fuel never runs out. -/
def splitSubAux (sep : List Char) : Nat → List Char → List Char → List (List Char)
  | 0, acc, rest => [acc.reverse ++ rest]
  | _ + 1, acc, [] => [acc.reverse]
  | fuel + 1, acc, c :: rest =>
    if isPre sep (c :: rest) ∧ ¬ sep.isEmpty then
      acc.reverse :: splitSubAux sep fuel [] ((c :: rest).drop sep.length)
    else
      splitSubAux sep fuel (c :: acc) rest

/-- Python `s.split(sep)` on strings. -/
def splitOnSub (sep : String) (s : String) : List String :=
  (splitSubAux sep.data (s.data.length + 1) [] s.data).map String.mk

/-- One `goal_modifiers` entry applied to one key: `_append` keys
concatenate onto an existing value of matching shape (and are dropped
otherwise), `_override` keys replace the base key, and plain keys set
directly. -/
def applyOneModifier (template_vars : Vars) (key : String) (value : Value) : Vars :=
  if strEndsWith key "_append" then
    let base_key := dropSuffixStr key "_append"
    match lookupKey template_vars base_key, value with
    | some (.s base), .s v => setKey template_vars base_key (.s (base ++ v))
    | some (.l base), .l v => setKey template_vars base_key (.l (base ++ v))
    | _, _ => template_vars
  else if strEndsWith key "_override" then
    setKey template_vars (dropSuffixStr key "_override") value
  else
    setKey template_vars key value

/-- Embedding of `TemplateLoader._apply_goal_modifiers`: each modifier
block whose pipe-delimited pattern has a keyword inside the lower-cased
goal is applied key by key. -/
def applyGoalModifiers (template_vars : Vars) (goal_modifiers : List (String × Vars))
    (goal_lower : String) : Vars :=
  goal_modifiers.foldl
    (fun m pm =>
      if (splitPipe pm.1).any (fun kw => strContains goal_lower kw) then
        pm.2.foldl (fun m2 kv => applyOneModifier m2 kv.1 kv.2) m
      else m)
    template_vars

/-- The unconditional CLI overrides of `resolve_template_vars` (step 4 of
the derivation order): truthy `focus`, `output` and `constraints` from the
enhanced context replace `primary_focus`, `expected_outputs` and
`constraints`. -/
def applyContextOverrides (template_vars : Vars) (enhanced_context : EnhancedContext) : Vars :=
  let v3 := if truthy enhanced_context.focus then
      setKey template_vars "primary_focus" (.s (enhanced_context.focus.getD ""))
    else template_vars
  let v4 := if truthy enhanced_context.output then
      setKey v3 "expected_outputs" (.s (enhanced_context.output.getD ""))
    else v3
  if truthy enhanced_context.constraints then
    setKey v4 "constraints" (.s (enhanced_context.constraints.getD ""))
  else v4

/-- The final `task_list` normalization of `resolve_template_vars`: a list
value is rendered as a newline-joined bulleted string. -/
def normalizeTaskList (template_vars : Vars) : Vars :=
  match lookupKey template_vars "task_list" with
  | some (.l tasks) =>
    setKey template_vars "task_list" (.s (joinNL (tasks.map (fun task => "- " ++ task))))
  | _ => template_vars

/-- Embedding of `TemplateLoader.resolve_template_vars` after the persona
has been loaded (the load itself is `load_persona`; see
`resolve_template_vars_loaded`): seed thread facts, apply the matched
template rule (falling back to the `default` rule when no rule matched or
the matched rule block is empty, as Python truthiness of `{}` dictates),
apply goal modifiers, apply CLI overrides, normalize `task_list`. -/
def resolve_template_vars (persona : PersonaConfig) (thread_data : ThreadData)
    (file_categories : List String) (enhanced_context : EnhancedContext) : Vars :=
  let goal := thread_data.goal.getD "development task"
  let base : Vars :=
    [("goal", .s goal), ("repo", .s (thread_data.repo.getD "project")),
     ("branch", .s (thread_data.branch.getD "main")), ("persona_name", .s persona.name)]
  let matched_rule :=
    match findMatchedRule persona.template_rules file_categories with
    | some r => if r = [] then (lookupKey persona.template_rules "default").getD [] else r
    | none => (lookupKey persona.template_rules "default").getD []
  let v1 := matched_rule.foldl (fun m kv => setKey m kv.1 kv.2) base
  let v2 := applyGoalModifiers v1 persona.goal_modifiers (pyLower goal)
  normalizeTaskList (applyContextOverrides v2 enhanced_context)

/-- Embedding of `resolve_template_vars` including its `load_persona`
call. -/
def resolve_template_vars_loaded (store : PersonaStore) (cache : LoaderState)
    (persona_name : String) (thread_data : ThreadData) (file_categories : List String)
    (enhanced_context : EnhancedContext) : Except String (Vars × LoaderState) :=
  match load_persona store cache persona_name with
  | .error e => .error e
  | .ok (persona, cache1) =>
    .ok (resolve_template_vars persona thread_data file_categories enhanced_context, cache1)

/-- Concrete enhanced context with all three CLI overrides supplied. -/
def ecW : EnhancedContext :=
  { focus := some "performance", output := some "a report", constraints := some "no deps" }

/-! ## Commit pattern analysis: cli/synthesis/analysis.py -/

/-- One `urgency_indicators` entry. -/
structure UrgencyIndicator where
  commit : String
  word : String
  subject : String
deriving DecidableEq

/-- Return dictionary of `analyze_commit_patterns` (analysis.py). -/
structure CommitAnalysis where
  fix_commits : Nat := 0
  feature_commits : Nat := 0
  refactor_commits : Nat := 0
  test_commits : Nat := 0
  docs_commits : Nat := 0
  config_commits : Nat := 0
  common_words : List (String × Nat) := []
  urgency_indicators : List UrgencyIndicator := []
  intent : String := "unknown"
  urgency : String := "normal"
  commit_count : Nat := 0
  keywords_found : Nat := 0
deriving DecidableEq

/-- The urgency keyword list of the per-commit loop. -/
def urgency_words : List String :=
  ["urgent", "critical", "hotfix", "emergency", "asap", "breaking"]

/-- The stopword set of the word histogram. -/
def ca_stopwords : List String :=
  ["the", "a", "an", "and", "or", "but", "in", "on", "at", "to", "for", "of",
   "with", "by", "is", "are", "was", "were"]

/-- Membership in the regex word class `\w` (the subjects scanned are
ASCII). -/
def isWordChar (c : Char) : Bool := c.isAlphanum || c == '_'

/-- Maximal runs of word characters (reversed-accumulator scan). -/
def wordRunsAux : List Char → List Char → List (List Char)
  | [], acc => if acc.isEmpty then [] else [acc.reverse]
  | c :: rest, acc =>
    if isWordChar c then wordRunsAux rest (c :: acc)
    else if acc.isEmpty then wordRunsAux rest []
    else acc.reverse :: wordRunsAux rest []

/-- Model of `re.findall(r'\b\w{3,}\b', s)`: the maximal word-character
runs of length at least 3, in order. -/
def pyWords3 (s : String) : List String :=
  ((wordRunsAux s.data []).filter (fun w => 3 ≤ w.length)).map String.mk

/-- The per-commit counting step of `analyze_commit_patterns`: first-match
type classification, urgency indicator collection, and the
stopword-filtered word histogram; a commit with an empty subject is
skipped (`continue`). -/
def commitStep (acc : CommitAnalysis) (commit : CommitRec) : CommitAnalysis :=
  let subject := pyLower commit.subject
  if subject = "" then acc
  else
    let acc1 :=
      if ["fix", "bug", "error", "issue", "resolve"].any (strContains subject) then
        { acc with fix_commits := acc.fix_commits + 1 }
      else if ["feat", "feature", "add", "implement", "new"].any (strContains subject) then
        { acc with feature_commits := acc.feature_commits + 1 }
      else if ["refactor", "cleanup", "improve", "optimize"].any (strContains subject) then
        { acc with refactor_commits := acc.refactor_commits + 1 }
      else if ["test", "spec", "coverage", "unit", "integration"].any (strContains subject) then
        { acc with test_commits := acc.test_commits + 1 }
      else if ["doc", "readme", "comment", "documentation"].any (strContains subject) then
        { acc with docs_commits := acc.docs_commits + 1 }
      else if ["config", "setup", "env", "deploy", "build"].any (strContains subject) then
        { acc with config_commits := acc.config_commits + 1 }
      else acc
    let newIndicators : List UrgencyIndicator :=
      (urgency_words.filter (fun w => strContains subject w)).map
        (fun w => ⟨pySlice commit.hash 8, w, commit.subject⟩)
    let acc2 :=
      { acc1 with urgency_indicators := acc1.urgency_indicators ++ newIndicators }
    let newWords : List (String × Nat) :=
      (pyWords3 (pyLower subject)).foldl
        (fun d word =>
          if ¬ ca_stopwords.contains word ∧ 2 < pyLen word then
            setKey d word ((lookupKey d word).getD 0 + 1)
          else d)
        acc2.common_words
    { acc2 with common_words := newWords }

/-- The intent keyword table, in dictionary insertion order. -/
def intent_patterns : List (String × List String) :=
  [("feature", ["add", "implement", "create", "new"]),
   ("bugfix", ["fix", "bug", "issue", "resolve", "correct"]),
   ("refactor", ["refactor", "clean", "improve", "optimize"]),
   ("docs", ["docs", "documentation", "readme", "comment"]),
   ("test", ["test", "testing", "spec", "coverage"]),
   ("config", ["config", "setup", "deploy", "ci", "build"])]

/-- The intent detection loop: strict improvement over the running
maximum, so the first maximum in table order wins. -/
def intentLoop (combined_text : String) :
    List (String × List String) → String × Nat → String × Nat
  | [], st => st
  | (intent, keywords) :: rest, (detected, mx) =>
    let nMatches := (keywords.filter (fun k => strContains combined_text k)).length
    if mx < nMatches then intentLoop combined_text rest (intent, nMatches)
    else intentLoop combined_text rest (detected, mx)

/-- Embedding of `analyze_commit_patterns` (analysis.py).  The commit
dictionaries built by `get_recent_commits` carry no `message` key, so
`commit.get('message', '')` is the empty string for every commit and the
combined text the intent and urgency detection scans is just the
space-joined empties. -/
def analyze_commit_patterns (recent_commits : List CommitRec) : CommitAnalysis :=
  if recent_commits = [] then {}
  else
    let combined_text :=
      String.intercalate " " (recent_commits.map (fun _ => pyLower ""))
    let patterns := recent_commits.foldl commitStep {}
    let im := intentLoop combined_text intent_patterns ("general", 0)
    let urgency :=
      if ["urgent", "critical", "hotfix", "emergency", "asap"].any
          (strContains combined_text) then "high"
      else "normal"
    { patterns with
      intent := im.1, urgency := urgency,
      commit_count := recent_commits.length, keywords_found := im.2 }

/-- Embedding of `assess_change_impact` (analysis.py). -/
def assess_change_impact (file_analysis : FileAnalysis)
    (commit_analysis : CommitAnalysis) : String :=
  if commit_analysis.urgency = "high" ∨ 10 < file_analysis.total_files
      ∨ 5 < commit_analysis.commit_count then "high"
  else if 5 < file_analysis.total_files ∨ 3 < commit_analysis.commit_count then "medium"
  else "low"

/-- Embedding of `generate_development_recommendations` (analysis.py). -/
def generate_development_recommendations (work_area : String)
    (_file_analysis : FileAnalysis) (commit_analysis : CommitAnalysis) : List String :=
  let base :=
    if work_area = "api" then
      ["Test all modified API endpoints thoroughly",
       "Verify authentication and authorization still work",
       "Update API documentation (OpenAPI/Swagger)",
       "Check for breaking changes in API contracts"]
    else if work_area = "frontend" then
      ["Test across different browsers and screen sizes",
       "Check mobile responsiveness",
       "Verify accessibility compliance",
       "Test user interactions and workflows"]
    else if work_area = "database" then
      ["Create reversible database migrations",
       "Test migrations on staging data first",
       "Backup production data before deployment",
       "Monitor query performance impact"]
    else if work_area = "tests" then
      ["Run full test suite to ensure no regressions",
       "Check test coverage metrics",
       "Verify tests are not flaky or interdependent",
       "Update test documentation if needed"]
    else []
  let extra :=
    if commit_analysis.intent = "feature" then
      ["Document the new feature functionality",
       "Add comprehensive tests for the new feature",
       "Consider feature flags for gradual rollout"]
    else if commit_analysis.intent = "bugfix" then
      ["Add regression tests to prevent future occurrences",
       "Verify the fix doesn\x27t introduce new issues",
       "Document the root cause and solution"]
    else []
  base ++ extra

/-- Embedding of `identify_risk_areas` (analysis.py). -/
def identify_risk_areas (work_area : String)
    (file_analysis : FileAnalysis) : List String :=
  let base :=
    if work_area = "api" then
      ["Breaking API contracts for existing clients",
       "Authentication or authorization bypass",
       "Performance impact on high-traffic endpoints"]
    else if work_area = "database" then
      ["Data loss during migration",
       "Performance degradation of existing queries",
       "Constraint violations with existing data"]
    else if work_area = "frontend" then
      ["Cross-browser compatibility issues",
       "Mobile device performance problems",
       "Accessibility regressions"]
    else []
  if 5 < file_analysis.total_files then
    base ++ ["High number of file changes increases integration risk"]
  else base

/-- The aggregate returned by `analyze_development_context`. -/
structure DevContext where
  work_area : String
  change_impact : String
  file_analysis : FileAnalysis
  commit_analysis : CommitAnalysis
  recommendations : List String
  risk_areas : List String
deriving DecidableEq

/-- Embedding of `analyze_development_context` (analysis.py); the
`repo_root` argument is unused by the source body and omitted. -/
def analyze_development_context (file_paths : List String)
    (recent_commits : List CommitRec) : DevContext :=
  let file_analysis := analyze_file_patterns file_paths
  let commit_analysis := analyze_commit_patterns recent_commits
  let work_area := determine_work_area file_analysis
  { work_area := work_area,
    change_impact := assess_change_impact file_analysis commit_analysis,
    file_analysis := file_analysis,
    commit_analysis := commit_analysis,
    recommendations :=
      generate_development_recommendations work_area file_analysis commit_analysis,
    risk_areas := identify_risk_areas work_area file_analysis }

/-! ## Snapshot synthesis: cli/synthesis/development.py, initial.py,
__init__.py, and the legacy cli/synthesis.py

The four-section result dictionary is an insertion-ordered string map,
because the domain-hint merge can add new sections.  The domain hint
provider (`interactive/domains.py`, an external collaborator in the spec)
is abstracted as a `DomainHints` map; `get_domain_synthesis_hints` returns
an empty dictionary when the domain template is missing, which is the
empty list here.  The operations that in Python mutate the persona
dictionary through aliased lists are modelled by returning the updated
`PersonaConfig` and writing it back to the cache, which is what the
in-place `.extend` amounts to (for a document that carries the
`guidelines_do` and `risk_factors` keys; a document missing such a key
would hand a fresh list to `.extend` and leave the cache unchanged). -/

/-- The synthesis section dictionary. -/
abbrev Sections := List (String × String)

/-- Abstract domain hint provider (`get_domain_synthesis_hints`). -/
def DomainHints := String → List (String × String)

/-- Embedding of `format_section_header` (interactive/domains.py). -/
def format_section_header (section_name : String) : String :=
  "## " ++ pyTitle (replaceChar section_name '_' ' ') ++ "\n\n"

/-- Embedding of `merge_synthesis_hints` (interactive/domains.py). -/
def merge_synthesis_hints (base_sections : Sections)
    (domain_hints : List (String × String)) : Sections :=
  domain_hints.foldl
    (fun merged nh =>
      match lookupKey merged nh.1 with
      | some v =>
        setKey merged nh.1 (v ++ "\n\n### Domain-Specific Guidance\n\n" ++ nh.2)
      | none => merged ++ [(nh.1, format_section_header nh.1 ++ nh.2)])
    base_sections

/-- The rendered development operator-instructions template
(development.py), applied to the (already overlay-extended) persona. -/
def renderDevOpInstr (focus output work_area : String) (cfg : PersonaConfig)
    (dev_context : DevContext) : String :=
  let do_section := joinNL (cfg.guidelines_do.map (fun item => "- " ++ item))
  let dont_section := joinNL (cfg.guidelines_dont.map (fun item => "- " ++ item))
  let tasks_section := joinNL (cfg.task_priorities.map (fun item => "- " ++ item))
  let risks_section := joinNL (cfg.risk_factors.map (fun item => "- " ++ item))
  let recommendations_section :=
    joinNL (dev_context.recommendations.map (fun item => "- " ++ item))
  "## Operator Instructions\n\nYou are a **" ++ cfg.role ++ "** " ++ cfg.context
    ++ ".\n\n**Primary Focus**: " ++ focus
    ++ "\n**Development Area**: " ++ pyTitle work_area ++ " Development"
    ++ "\n**Change Impact**: " ++ pyTitle dev_context.change_impact
    ++ "\n\n### Guidelines\n\n**Do:**\n" ++ do_section
    ++ "\n\n**Don\x27t:**\n" ++ dont_section
    ++ "\n\n### Development Tasks for This Session\n" ++ tasks_section
    ++ "\n\n### Context-Specific Recommendations\n" ++ recommendations_section
    ++ "\n\n### Expected Outputs\n" ++ output
    ++ "\n\n### Risk Factors\n" ++ risks_section
    ++ "\n\n---\n"

/-- Embedding of `synthesize_development_operator_instructions_with_template`
(development.py).  The local `guidelines_do` and `risk_factors` variables
alias the lists held by the persona dictionary, so the two `.extend`
calls mutate the persona object in place; the returned second component
is that mutated persona. -/
def synthesize_development_operator_instructions_with_template
    (enhanced_context : EnhancedContext) (_persona : String)
    (persona_config : PersonaConfig) (dev_context : DevContext) :
    String × PersonaConfig :=
  let focus := enhanced_context.focus.getD "development work"
  let output := enhanced_context.output.getD "working implementation"
  let work_area := dev_context.work_area
  let cfg :=
    match lookupKey persona_config.development_contexts work_area with
    | some context_specific =>
      { persona_config with
        guidelines_do :=
          persona_config.guidelines_do ++ context_specific.specific_guidelines,
        risk_factors :=
          persona_config.risk_factors ++ context_specific.risk_factors }
    | none => persona_config
  (renderDevOpInstr focus output work_area cfg dev_context, cfg)

/-- Embedding of `synthesize_development_current_state` (development.py). -/
def synthesize_development_current_state (file_paths : List String)
    (_recent_commits : List CommitRec) (dev_context : DevContext) : String :=
  let work_area := dev_context.work_area
  let intent := dev_context.commit_analysis.intent
  let commit_count := dev_context.commit_analysis.commit_count
  let file_summary := "**Modified Files**: " ++ toString file_paths.length
    ++ " files across " ++ work_area ++ " area"
  let work_summary := "**Recent Work**: " ++ toString commit_count
    ++ " commits focused on " ++ intent ++ " work"
  let breakdown_items :=
    dev_context.file_analysis.patterns.filterMap (fun p =>
      if 0 < p.2 ∧ p.1 ≠ "other" then
        some ("- **" ++ pyTitle p.1 ++ "**: " ++ toString p.2 ++ " files")
      else none)
  let breakdown :=
    if breakdown_items ≠ [] then joinNL breakdown_items
    else "- General development work"
  "## Current Development State\n\n" ++ file_summary ++ "\n" ++ work_summary
    ++ "\n\n### File Breakdown\n" ++ breakdown
    ++ "\n\n### Development Context\n- **Primary Area**: " ++ pyTitle work_area
    ++ " development\n- **Change Impact**: " ++ pyTitle dev_context.change_impact
    ++ "\n- **Work Intent**: " ++ pyTitle intent ++ " implementation"
    ++ "\n\n### Recent Activity\n- Last " ++ toString commit_count ++ " commits show "
    ++ intent ++ " work\n- " ++ toString file_paths.length
    ++ " files modified in current session\n- Focus area: " ++ work_area
    ++ " development\n\n"

/-- The focus-area scan of
`synthesize_development_decisions_constraints_with_template`. -/
def buildDevApproach (focus_areas : List String) : List String :=
  focus_areas.filterMap (fun area =>
    let al := pyLower area
    if strContains al "quality" then
      some "- **Code Quality**: Maintain consistency with existing codebase"
    else if strContains al "testing" then
      some "- **Testing**: Comprehensive testing for all modifications"
    else if strContains al "documentation" then
      some "- **Documentation**: Update docs to reflect changes"
    else if strContains al "integration" then
      some "- **Integration**: Ensure compatibility with existing systems"
    else if strContains al "performance" then
      some "- **Performance**: Monitor and optimize performance impact"
    else if strContains al "security" then
      some "- **Security**: Review security implications of changes"
    else none)

/-- Embedding of
`synthesize_development_decisions_constraints_with_template`
(development.py). -/
def synthesize_development_decisions_constraints_with_template
    (enhanced_context : EnhancedContext) (persona_config : PersonaConfig)
    (dev_context : DevContext) : String :=
  let constraints := enhanced_context.constraints.getD "best practices"
  let work_area := dev_context.work_area
  let approach_section := joinNL (buildDevApproach persona_config.focus_areas)
  let priorities :=
    if work_area = "api" then
      ["**API Compatibility**: Maintain backwards compatibility",
       "**Testing**: Test all endpoints and edge cases",
       "**Documentation**: Update API documentation",
       "**Performance**: Monitor response times and throughput"]
    else if work_area = "frontend" then
      ["**User Experience**: Maintain consistent UI patterns",
       "**Cross-Browser**: Test across different browsers",
       "**Performance**: Optimize for mobile and desktop",
       "**Accessibility**: Ensure accessibility compliance"]
    else if work_area = "database" then
      ["**Data Integrity**: Ensure migration safety",
       "**Performance**: Monitor query performance impact",
       "**Rollback**: Plan rollback strategies",
       "**Testing**: Test migrations on staging data"]
    else
      ["**Code Quality**: Follow established patterns",
       "**Testing**: Add comprehensive test coverage",
       "**Integration**: Verify system integration",
       "**Documentation**: Update relevant documentation"]
  let priorities_section :=
    joinNL ((enumFrom 1 priorities).map (fun p => toString p.1 ++ ". " ++ p.2))
  "## Decisions & Constraints\n\n**Project Requirements**: " ++ constraints
    ++ "\n\n## Technical Approach\n" ++ approach_section
    ++ "\n\n## Development Priorities\n" ++ priorities_section

/-- Embedding of `synthesize_development_open_questions` (development.py). -/
def synthesize_development_open_questions (dev_context : DevContext)
    (file_paths : List String) (_recent_commits : List CommitRec) : String :=
  let work_area := dev_context.work_area
  let change_impact := dev_context.change_impact
  let recommendations := dev_context.recommendations
  let risks := dev_context.risk_areas
  let q1 :=
    if work_area = "api" then
      ["Are there any breaking changes in the API modifications?",
       "Do we need to version these API changes?",
       "Have all authentication scenarios been tested?",
       "Is the API documentation up to date?"]
    else if work_area = "database" then
      ["Can these database changes be rolled back safely?",
       "Have migrations been tested with production-like data?",
       "Will these changes impact query performance?",
       "Are there any data integrity concerns?"]
    else if work_area = "frontend" then
      ["Have these changes been tested on mobile devices?",
       "Are there any accessibility concerns with the UI changes?",
       "Do these changes impact page load performance?",
       "Are the UI patterns consistent with the rest of the application?"]
    else []
  let q2 :=
    if change_impact = "high" then
      q1 ++ ["Should these high-impact changes be deployed gradually?",
             "Do we have adequate monitoring for these changes?",
             "Is there a rollback plan if issues arise?"]
    else q1
  let q3 :=
    if 3 < recommendations.length then
      q2 ++ ["Are there too many changes being made at once?"]
    else q2
  let q4 :=
    if 8 < file_paths.length then
      q3 ++ ["Should this work be broken into smaller, more focused changes?"]
    else q3
  let questions :=
    if q4 = [] then
      ["Are there any potential integration issues with existing code?",
       "Have all edge cases been considered and tested?",
       "Is additional documentation needed for these changes?",
       "Are there performance implications to consider?"]
    else q4
  let questions_section := joinNL (questions.map (fun q => "- " ++ q))
  let risk_section :=
    if risks ≠ [] then joinNL (risks.map (fun r => "- " ++ r))
    else "- Standard development risks apply"
  "## Open Questions & Considerations\n\n### Development Questions\n"
    ++ questions_section ++ "\n\n### Risk Assessment\n" ++ risk_section
    ++ "\n\n### Next Steps\n- Review and address the questions above\n"
    ++ "- Complete testing based on recommendations\n"
    ++ "- Update documentation as needed\n"
    ++ "- Plan deployment and monitoring strategy"

/-- Embedding of `generate_development_stage_snapshot`
(cli/synthesis/development.py, the canonical stage-split module): the
persona template named exactly `persona` is required, the four sections
are rendered from live analysis data, domain hints are merged when a
domain is supplied, and a load failure is re-raised as a `ValueError`
naming the missing template.  The cache write-back after the
operator-instructions step reflects the in-place list mutation of the
cached persona object. -/
def generate_development_stage_snapshot (store : PersonaStore) (hints : DomainHints)
    (cache : LoaderState) (_thread_data : ThreadData) (file_paths : List String)
    (recent_commits : List CommitRec) (persona : String)
    (enhanced_context : EnhancedContext) : Except String (Sections × LoaderState) :=
  let dev_context := analyze_development_context file_paths recent_commits
  match load_persona store cache persona with
  | .error _ => .error ("Missing required template file: " ++ persona)
  | .ok (persona_config, cache1) =>
    let oi := synthesize_development_operator_instructions_with_template
      enhanced_context persona persona_config dev_context
    let cache2 := setKey cache1 persona oi.2
    let sections : Sections :=
      [("operator_instructions", oi.1),
       ("current_state",
        synthesize_development_current_state file_paths recent_commits dev_context),
       ("decisions_constraints",
        synthesize_development_decisions_constraints_with_template
          enhanced_context oi.2 dev_context),
       ("open_questions",
        synthesize_development_open_questions dev_context file_paths recent_commits)]
    let sections2 :=
      if truthy enhanced_context.domain then
        let domain_hints := hints (enhanced_context.domain.getD "")
        if domain_hints ≠ [] then merge_synthesis_hints sections domain_hints
        else sections
      else sections
    .ok (sections2, cache2)

/-- The hardcoded minimal persona substituted by the legacy initial-stage
path when the template is missing (cli/synthesis.py). -/
def legacyFallbackPersona : PersonaConfig :=
  { role := "Senior Backend Developer",
    context := "You are setting up a new project from scratch",
    guidelines_do := ["Focus on architectural decisions and project setup"],
    guidelines_dont := ["Over-engineer for current requirements"],
    task_priorities := ["Design system architecture and component boundaries"],
    risk_factors := ["Technology choice paralysis"] }

/-- The rendered initial operator-instructions template; the same literal
template appears in cli/synthesis.py and cli/synthesis/initial.py. -/
def renderInitialOpInstr (enhanced_context : EnhancedContext)
    (persona_config : PersonaConfig) : String :=
  let focus := enhanced_context.focus.getD "project setup"
  let output := enhanced_context.output.getD "working foundation"
  let do_section := joinNL (persona_config.guidelines_do.map (fun item => "- " ++ item))
  let dont_section :=
    joinNL (persona_config.guidelines_dont.map (fun item => "- " ++ item))
  let tasks_section :=
    joinNL (persona_config.task_priorities.map (fun item => "- " ++ item))
  let risks_section := joinNL (persona_config.risk_factors.map (fun item => "- " ++ item))
  "## Operator Instructions\n\nYou are a **" ++ persona_config.role ++ "** "
    ++ persona_config.context ++ ".\n\n**Primary Focus**: " ++ focus
    ++ "\n\n### Guidelines\n\n**Do:**\n" ++ do_section
    ++ "\n\n**Don\x27t:**\n" ++ dont_section
    ++ "\n\n### Tasks for This Session\n" ++ tasks_section
    ++ "\n\n### Expected Outputs\n" ++ output
    ++ "\n\n### Risk Factors\n" ++ risks_section
    ++ "\n\n---\n"

/-- Embedding of the legacy `synthesize_initial_operator_instructions`
(cli/synthesis.py): the template named `persona ++ "-initial"` is tried
and, on any failure, a hardcoded minimal persona is substituted, so the
function always completes with a rendered string (the cache is advanced
only on a successful load). -/
def synthesize_initial_operator_instructions (store : PersonaStore)
    (cache : LoaderState) (enhanced_context : EnhancedContext) (persona : String) :
    String × LoaderState :=
  match load_persona store cache (persona ++ "-initial") with
  | .ok (persona_config, cache1) =>
    (renderInitialOpInstr enhanced_context persona_config, cache1)
  | .error _ => (renderInitialOpInstr enhanced_context legacyFallbackPersona, cache)

/-- Embedding of
`synthesize_initial_operator_instructions_with_template`
(cli/synthesis/initial.py, the canonical stage-split module): the template
name is exactly `persona`, and a load failure is re-raised as a
`ValueError` naming the missing template file. -/
def synthesize_initial_operator_instructions_with_template (store : PersonaStore)
    (cache : LoaderState) (enhanced_context : EnhancedContext) (persona : String) :
    Except String (String × LoaderState) :=
  match load_persona store cache persona with
  | .ok (persona_config, cache1) =>
    .ok (renderInitialOpInstr enhanced_context persona_config, cache1)
  | .error _ => .error ("Missing required template file: " ++ persona ++ ".yml")

/-- The focus-area scan of the initial decisions section. -/
def buildInitialApproach (focus_areas : List String) : List String :=
  focus_areas.filterMap (fun area =>
    let al := pyLower area
    if strContains al "architecture" then
      some "- **Architecture**: Design for scalability and maintainability"
    else if strContains al "technology" then
      some "- **Technology**: Select proven, well-supported technologies"
    else if strContains al "development" ∨ strContains al "environment" then
      some "- **Development**: Set up proper development and testing environment"
    else if strContains al "project structure" ∨ strContains al "setup" then
      some "- **Documentation**: Document key architectural decisions"
    else none)

/-- Embedding of `synthesize_initial_decisions_constraints_with_template`
(cli/synthesis/initial.py): loads the template named exactly `persona` and
fails hard when it is missing. -/
def synthesize_initial_decisions_constraints_with_template (store : PersonaStore)
    (cache : LoaderState) (enhanced_context : EnhancedContext) (persona : String) :
    Except String (String × LoaderState) :=
  let constraints := enhanced_context.constraints.getD "best practices"
  match load_persona store cache persona with
  | .error _ => .error ("Missing required template file: " ++ persona ++ ".yml")
  | .ok (persona_config, cache1) =>
    let approach_section := joinNL (buildInitialApproach persona_config.focus_areas)
    .ok ("## Decisions & Constraints\n\n**Project Requirements**: " ++ constraints
      ++ "\n\n## Technical Approach\n" ++ approach_section
      ++ "\n\n## Initial Setup Priorities\n"
      ++ "1. **Architecture Design**: Define system boundaries and component interactions\n"
      ++ "2. **Technology Selection**: Choose appropriate frameworks and databases\n"
      ++ "3. **Environment Setup**: Configure development and deployment environments\n"
      ++ "4. **Foundation Code**: Create project structure and basic scaffolding", cache1)

/-- Embedding of `synthesize_initial_operator_instructions_empty`
(cli/synthesis/initial.py). -/
def synthesize_initial_operator_instructions_empty
    (enhanced_context : EnhancedContext) : String :=
  let focus := enhanced_context.focus.getD "project setup"
  let output := enhanced_context.output.getD "working foundation"
  "## Operator Instructions\n\nYou are a **Senior Backend Developer** setting up a new project from scratch.\n\n**Primary Focus**: "
    ++ focus
    ++ "\n\n### Guidelines\n\n**Do:**\n\n**Don\x27t:**\n\n### Tasks for This Session\n\n### Expected Outputs\n"
    ++ output ++ "\n\n### Risk Factors\n\n---\n"

/-- Embedding of `synthesize_initial_decisions_constraints_empty`
(cli/synthesis/initial.py). -/
def synthesize_initial_decisions_constraints_empty
    (enhanced_context : EnhancedContext) : String :=
  let constraints := enhanced_context.constraints.getD "best practices"
  "## Decisions & Constraints\n\n**Project Requirements**: " ++ constraints
    ++ "\n\n## Technical Approach\n\n## Initial Setup Priorities\n1. \n2. \n3. \n4. "

/-- Embedding of `generate_initial_stage_snapshot`
(cli/synthesis/initial.py): no file or commit data is accepted or used;
with `comprehensive` the two template-driven sections are rendered (each
loading the template named exactly `persona`) and the other two sections
are literal placeholder strings. -/
def generate_initial_stage_snapshot (store : PersonaStore) (cache : LoaderState)
    (_thread_data : ThreadData) (enhanced_context : EnhancedContext)
    (persona : String) (comprehensive : Bool := true) :
    Except String (Sections × LoaderState) :=
  if comprehensive then
    match synthesize_initial_operator_instructions_with_template
        store cache enhanced_context persona with
    | .error e => .error e
    | .ok (oi, cache1) =>
      match synthesize_initial_decisions_constraints_with_template
          store cache1 enhanced_context persona with
      | .error e => .error e
      | .ok (dc, cache2) =>
        .ok ([("operator_instructions", oi),
              ("current_state",
               "This is a greenfield project - comprehensive template guidance provided."),
              ("decisions_constraints", dc),
              ("open_questions",
               "Template-based questions and considerations provided.")], cache2)
  else
    .ok ([("operator_instructions",
           synthesize_initial_operator_instructions_empty enhanced_context),
          ("current_state",
           "This is a greenfield project - empty structure provided for customization."),
          ("decisions_constraints",
           synthesize_initial_decisions_constraints_empty enhanced_context),
          ("open_questions",
           "No predefined questions - customize as needed.")], cache)

/-- Embedding of `generate_comprehensive_snapshot`
(cli/synthesis/__init__.py): dispatch on `enhanced_context.stage`
(default `development`); an absent enhanced context is the empty
dictionary, which the default `EnhancedContext` models. -/
def generate_comprehensive_snapshot (store : PersonaStore) (hints : DomainHints)
    (cache : LoaderState) (thread_data : ThreadData) (file_paths : List String)
    (recent_commits : List CommitRec) (persona : String)
    (enhanced_context : EnhancedContext) : Except String (Sections × LoaderState) :=
  let stage := enhanced_context.stage.getD "development"
  if stage = "initial" then
    generate_initial_stage_snapshot store cache thread_data enhanced_context persona true
  else
    generate_development_stage_snapshot store hints cache thread_data file_paths
      recent_commits persona enhanced_context

/-- Boolean success test for `Except`. -/
def exceptOk {ε α : Type} : Except ε α → Bool
  | .ok _ => true
  | .error _ => false

/-- A generic persona document used by the stage fixtures. -/
def personaP : PersonaConfig := { name := "P" }

/-- Store holding only the `-initial` variant of `senior-backend-dev`. -/
def storeInitialOnly : PersonaStore := fun n =>
  if n = "senior-backend-dev-initial" then some personaP else none

/-- Store holding only the plain `senior-backend-dev` template. -/
def storePlain : PersonaStore := fun n =>
  if n = "senior-backend-dev" then some personaP else none

/-- Store with no templates at all. -/
def store0 : PersonaStore := fun _ => none

/-- Hint provider with no domain templates. -/
def hints0 : DomainHints := fun _ => []

/-- Enhanced context selecting the initial stage. -/
def ecInitial : EnhancedContext := { stage := some "initial" }

/-- Persona document with a development-context overlay for the `api`
work area, used to exhibit the cache mutation. -/
def personaMut : PersonaConfig :=
  { guidelines_do := ["base guideline"],
    risk_factors := ["base risk"],
    development_contexts :=
      [("api", { specific_guidelines := ["api guideline"],
                 risk_factors := ["api risk"] })] }

/-- Store holding `personaMut` under the name `dev-p`. -/
def storeMut : PersonaStore := fun n => if n = "dev-p" then some personaMut else none

/-- One development-stage synthesis run over `["api/users.py"]` with the
`dev-p` persona, returning the loader cache it leaves behind. -/
def devRunCache (cache : LoaderState) : LoaderState :=
  match generate_development_stage_snapshot storeMut hints0 cache {} ["api/users.py"]
      [] "dev-p" {} with
  | .ok (_, cache1) => cache1
  | .error _ => cache

/-! ## Git gathering and its error model: gather.py

Each subprocess invocation is abstracted by a fate drawn from the
environment: it either completed with exit code 0 and some stdout, exited
non-zero, timed out (`subprocess.TimeoutExpired`), or failed to start
because the `git` binary is unavailable (`FileNotFoundError`, an
`OSError`).  The `git diff-tree` call of `files_changed_in_last_commit`
passes no `timeout=` argument, so its fate has no timeout case; it is run
with `check=True`, so a non-zero exit raises `CalledProcessError` there.
Stdout strings in this model use `\n` line separators, which is what the
parsing code splits on. -/

/-- Fate of one `subprocess.run` call with a timeout and `check=False`. -/
inductive CmdFate where
  | ok : String → CmdFate
  | exitNonzero : CmdFate
  | timedOut : CmdFate
  | noGit : CmdFate
deriving DecidableEq

/-- Fate of the `git diff-tree` call (no timeout, `check=True`). -/
inductive DiffTreeFate where
  | ok : String → DiffTreeFate
  | exitNonzero : DiffTreeFate
  | noGit : DiffTreeFate
deriving DecidableEq

/-- The Python exceptions the gathering layer can leak. -/
inductive PyError where
  | fileNotFoundError : PyError
deriving DecidableEq

/-- Embedding of `safe_git_command` (gather.py): stdout on success, the
empty string on a non-zero exit (`check=False`), and the empty string on
`TimeoutExpired` or `OSError`, both caught. -/
def safe_git_command : CmdFate → String
  | .ok out => out
  | .exitNonzero => ""
  | .timedOut => ""
  | .noGit => ""

/-- Model of Python `s.splitlines()` for `\n`-separated text: like
`split('\n')` except that a trailing newline does not produce a final
empty chunk. -/
def splitLines (s : String) : List String :=
  if s.data.isEmpty then []
  else if s.data.getLast? = some '\n' then (splitOnChar '\n' s).dropLast
  else splitOnChar '\n' s

/-- Embedding of `files_changed_in_last_commit` (gather.py): the stripped
non-blank stdout lines on success; a `CalledProcessError` (non-zero exit
under `check=True`) is caught and yields `[]`; a missing git binary raises
`FileNotFoundError`, which the `except subprocess.CalledProcessError`
clause does NOT catch, so it propagates. -/
def files_changed_in_last_commit : DiffTreeFate → Except PyError (List String)
  | .ok out =>
    .ok (((splitLines out).map pyStrip).filter (fun line => line ≠ ""))
  | .exitNonzero => .ok []
  | .noGit => .error .fileNotFoundError

/-- The observable git environment of one gathering run. -/
structure GitEnv where
  staged : CmdFate
  unstaged : CmdFate
  untracked : CmdFate
  diffTree : DiffTreeFate
  log : CmdFate
  importantGlob : List String

/-- Embedding of `list_changed_files` (gather.py): union of staged,
unstaged and untracked paths, deduplicated and stripped of blanks (the
CPython `list(set(...))` order is unspecified; first occurrence here). -/
def list_changed_files (env : GitEnv) : List String :=
  let staged := safe_git_command env.staged
  let modified := safe_git_command env.unstaged
  let untracked := safe_git_command env.untracked
  let changed_files :=
    (if staged ≠ "" then splitOnChar '\n' (pyStrip staged) else [])
    ++ (if modified ≠ "" then splitOnChar '\n' (pyStrip modified) else [])
    ++ (if untracked ≠ "" then splitOnChar '\n' (pyStrip untracked) else [])
  dedupFirst (changed_files.filter (fun f => pyStrip f ≠ ""))

/-- The stats dictionary of `build_smart_paths`. -/
structure GatherStats where
  total_changed : Nat
  after_filtering : Nat
  final_count : Nat
  skipped_binary : Nat
  skipped_irrelevant : Nat
deriving DecidableEq

/-- Embedding of `build_smart_paths` (gather.py). -/
def build_smart_paths (env : GitEnv) (fs : FS) (max_tokens : Nat := 6000) :
    List String × GatherStats :=
  let changed_files := list_changed_files env
  let relevant_files := filter_relevant_files fs changed_files
  let final_files := enforce_budget fs relevant_files max_tokens
  (final_files,
   { total_changed := changed_files.length,
     after_filtering := relevant_files.length,
     final_count := final_files.length,
     skipped_binary := (changed_files.filter (fun f => is_binary_file fs f)).length,
     skipped_irrelevant := changed_files.length - relevant_files.length })

/-- A parsed and analyzed commit of `get_recent_commits`. -/
structure CommitData where
  hash : String
  subject : String
  time_ago : String
  author : String
  email : String
  body : String
  type : String
  scope : List String
  breaking_change : Bool
  closes_issue : Bool
deriving DecidableEq

/-- The scope keyword table of `analyze_single_commit` (gather.py), in
dictionary insertion order. -/
def scope_patterns : List (String × List String) :=
  [("api", ["api", "endpoint", "route", "server"]),
   ("ui", ["ui", "frontend", "component", "css", "html"]),
   ("db", ["database", "db", "migration", "schema"]),
   ("auth", ["auth", "login", "security", "token"]),
   ("infra", ["infra", "deploy", "terraform", "aws", "docker"])]

/-- The tail of the issue-closure regex after a keyword: one or more
whitespace characters, an optional `#`, and at least one digit
(`\s+#?\d+`). -/
def issueTail : List Char → Bool
  | [] => false
  | c :: rest =>
    c.isWhitespace &&
      (let r1 := rest.dropWhile Char.isWhitespace
       let r2 := match r1 with
         | '#' :: t => t
         | _ => r1
       match r2 with
       | d :: _ => d.isDigit
       | [] => false)

/-- The issue-closure keywords. -/
def closeKeywords : List String :=
  ["close", "closes", "fix", "fixes", "resolve", "resolves"]

/-- Scan for the issue-closure pattern at every position, as `re.search`
does (the text scanned is already lower-cased, making `re.IGNORECASE`
moot). -/
def closesScan : List Char → Bool
  | [] => false
  | c :: rest =>
    closeKeywords.any
      (fun kw => isPre kw.data (c :: rest) && issueTail ((c :: rest).drop kw.data.length))
    || closesScan rest

/-- Model of the `closes_issue` regex search of `analyze_single_commit`. -/
def closesIssue (s : String) : Bool := closesScan s.data

/-- Embedding of `analyze_single_commit` (gather.py), folded into the
commit record construction: type is first-match over the lower-cased
subject, scopes are tested independently against subject plus body,
breaking-change and issue-closure flags scan the combined text. -/
def analyze_single_commit (hash subject time_ago author email body : String) :
    CommitData :=
  let subjectL := pyLower subject
  let full_text := pyLower (subject ++ " " ++ body)
  let ctype :=
    if ["fix", "bug", "error", "issue"].any (strContains subjectL) then "fix"
    else if ["feat", "feature", "add", "implement"].any (strContains subjectL) then "feat"
    else if ["refactor", "cleanup", "improve"].any (strContains subjectL) then "refactor"
    else if ["test", "spec", "coverage"].any (strContains subjectL) then "test"
    else if ["doc", "readme", "comment"].any (strContains subjectL) then "docs"
    else if ["config", "setup", "env", "deploy"].any (strContains subjectL) then "config"
    else "other"
  { hash := hash, subject := subject, time_ago := time_ago, author := author,
    email := email, body := body,
    type := ctype,
    scope := scope_patterns.filterMap
      (fun p => if p.2.any (strContains full_text) then some p.1 else none),
    breaking_change :=
      ["breaking", "breaking change", "major", "!"].any (strContains full_text),
    closes_issue := closesIssue full_text }

/-- Parsing of one `git log` entry (`%H|%s|%ar|%an|%ae|%B` lines):
entries that are blank or whose first line has fewer than four
pipe-separated parts are skipped. -/
def parseCommitEntry (entry : String) : Option CommitData :=
  if pyStrip entry = "" then none
  else
    match splitOnChar '\n' entry with
    | [] => none
    | first_line :: body_lines =>
      let parts := splitOnChar '|' first_line
      if 4 ≤ parts.length then
        some (analyze_single_commit (parts.getD 0 "") (parts.getD 1 "")
          (parts.getD 2 "") (parts.getD 3 "")
          (if 4 < parts.length then parts.getD 4 "" else "")
          (pyStrip (joinNL body_lines)))
      else none

/-- Embedding of `get_recent_commits` (gather.py): parse the
double-newline separated entries of the log output; every failure mode
(non-zero exit, timeout, missing git) is caught by the blanket
`except Exception` and yields the empty list. -/
def get_recent_commits (fate : CmdFate) (limit : Nat) : List CommitData :=
  match fate with
  | .ok out =>
    ((splitOnSub "\n\n" (pyStrip out)).filterMap parseCommitEntry).take limit
  | .exitNonzero => []
  | .timedOut => []
  | .noGit => []

/-- Embedding of `find_important_files` (gather.py): the glob matches the
environment provides, deduplicated, kept when present on disk. -/
def find_important_files (env : GitEnv) (fs : FS) : List String :=
  (dedupFirst env.importantGlob).filter (fun p => (fs p).isSome)

/-- Embedding of `keep_if_exists` (gather.py). -/
def keep_if_exists (fs : FS) (paths : List String) : List String :=
  paths.filter (fun p => (fs p).isSome)

/-- Stable insertion for `sorted` over strings. -/
def insertStr (x : String) : List String → List String
  | [] => [x]
  | y :: ys => if strLt x y then x :: y :: ys else y :: insertStr x ys

/-- Python `sorted` over strings. -/
def sortStr : List String → List String
  | [] => []
  | x :: xs => insertStr x (sortStr xs)

/-- The fixed identity file list of `gather_comprehensive`. -/
def identity_files : List String :=
  ["README.md", "package.json", "infra/main.tf",
   "infra/variables.tf", "infra/outputs.tf", ".copidock/state.json"]

/-- Embedding of `gather_comprehensive` (gather.py): changed files under
half the budget, the last-commit fallback when nothing changed, the
always-important and identity files, filtering, the full-budget cutoff,
and the recent commits.  The only uncaught exception is the
`FileNotFoundError` of the fallback. -/
def gather_comprehensive (env : GitEnv) (fs : FS) (_thread_id : String)
    (max_tokens : Nat := 6000) :
    Except PyError (List String × List CommitData × List String) :=
  let changed_files := (build_smart_paths env fs (max_tokens / 2)).1
  let changedE : Except PyError (List String) :=
    if changed_files = [] then files_changed_in_last_commit env.diffTree
    else .ok changed_files
  match changedE with
  | .error e => .error e
  | .ok changed_files =>
    let important_files := find_important_files env fs ++ keep_if_exists fs identity_files
    let all_candidates := sortStr (dedupFirst (changed_files ++ important_files))
    let filtered_candidates := filter_relevant_files fs all_candidates
    let final_files := enforce_budget fs filtered_candidates max_tokens
    let recent_commits := get_recent_commits env.log 5
    .ok (final_files, recent_commits, [])

/-- Environment in which the git binary is unavailable: every subprocess
raises `FileNotFoundError`. -/
def envNoGit : GitEnv :=
  { staged := .noGit, unstaged := .noGit, untracked := .noGit,
    diffTree := .noGit, log := .noGit, importantGlob := [] }

/-- Environment of a directory that is not a git repository: every git
command exits non-zero. -/
def envNoRepo : GitEnv :=
  { staged := .exitNonzero, unstaged := .exitNonzero, untracked := .exitNonzero,
    diffTree := .exitNonzero, log := .exitNonzero, importantGlob := [] }

-- THEOREMS --

theorem insertBySize_perm (x : String × Nat) (l : List (String × Nat)) :
    (insertBySize x l).Perm (x :: l) := by
  induction l with
  | nil => simp [insertBySize]
  | cons y ys ih =>
    simp only [insertBySize]
    split
    · exact List.Perm.refl _
    · exact (List.Perm.cons y ih).trans (List.Perm.swap x y ys)

theorem sortBySize_perm (l : List (String × Nat)) : (sortBySize l).Perm l := by
  induction l with
  | nil => simp [sortBySize]
  | cons x xs ih => exact (insertBySize_perm x (sortBySize xs)).trans (List.Perm.cons x ih)

theorem mem_insertBySize {b x : String × Nat} {l : List (String × Nat)} :
    b ∈ insertBySize x l ↔ b = x ∨ b ∈ l := by
  rw [(insertBySize_perm x l).mem_iff, List.mem_cons]

theorem insertBySize_sorted (x : String × Nat) {l : List (String × Nat)}
    (h : l.Pairwise (fun a b => a.2 ≤ b.2)) :
    (insertBySize x l).Pairwise (fun a b => a.2 ≤ b.2) := by
  induction l with
  | nil => simp [insertBySize]
  | cons y ys ih =>
    rw [List.pairwise_cons] at h
    simp only [insertBySize]
    split
    · rename_i hlt
      refine List.Pairwise.cons ?_ (List.Pairwise.cons h.1 h.2)
      intro b hb
      rcases List.mem_cons.1 hb with rfl | hb
      · exact Nat.le_of_lt hlt
      · exact Nat.le_trans (Nat.le_of_lt hlt) (h.1 b hb)
    · rename_i hge
      refine List.Pairwise.cons ?_ (ih h.2)
      intro b hb
      rcases mem_insertBySize.1 hb with rfl | hb
      · exact Nat.le_of_not_lt hge
      · exact h.1 b hb

theorem sortBySize_sorted (l : List (String × Nat)) :
    (sortBySize l).Pairwise (fun a b => a.2 ≤ b.2) := by
  induction l with
  | nil => simp [sortBySize]
  | cons x xs ih => exact insertBySize_sorted x ih

theorem budgetLoop_sum (fs : FS) (B : Nat) :
    ∀ (l : List (String × Nat)) (total : Nat),
      (∀ p ∈ l, p.2 = get_file_size_estimate fs p.1) → total ≤ B →
      total + ((budgetLoop B l total).map (get_file_size_estimate fs)).sum ≤ B := by
  intro l
  induction l with
  | nil => intro total _ htot; simpa [budgetLoop] using htot
  | cons p rest ih =>
    intro total hmem htot
    obtain ⟨path, e⟩ := p
    have he : e = get_file_size_estimate fs path := hmem (path, e) (List.mem_cons_self _ _)
    simp only [budgetLoop]
    split
    · rename_i hle
      have := ih (total + e) (fun q hq => hmem q (List.mem_cons_of_mem _ hq)) hle
      simp only [List.map_cons, List.sum_cons]
      omega
    · simpa using htot

theorem budgetLoop_isPrefix (B : Nat) :
    ∀ (l : List (String × Nat)) (total : Nat),
      budgetLoop B l total <+: l.map Prod.fst := by
  intro l
  induction l with
  | nil => intro total; exact ⟨[], rfl⟩
  | cons p rest ih =>
    intro total
    obtain ⟨path, e⟩ := p
    simp only [budgetLoop]
    split
    · obtain ⟨t, ht⟩ := ih (total + e)
      exact ⟨t, by simp [← ht]⟩
    · exact ⟨_, rfl⟩

theorem budgetLoop_stop (B : Nat) :
    ∀ (l : List (String × Nat)) (total : Nat),
      (budgetLoop B l total).length < l.length →
      B < total + ((l.take ((budgetLoop B l total).length + 1)).map Prod.snd).sum := by
  intro l
  induction l with
  | nil => intro total h; simp [budgetLoop] at h
  | cons p rest ih =>
    intro total h
    obtain ⟨path, e⟩ := p
    by_cases hle : total + e ≤ B
    · simp only [budgetLoop, if_pos hle, List.length_cons, Nat.add_lt_add_iff_right] at h
      have := ih (total + e) h
      simp only [budgetLoop, if_pos hle, List.length_cons, List.take_succ_cons,
        List.map_cons, List.sum_cons]
      omega
    · simp only [budgetLoop, if_neg hle, List.length_nil, List.take_succ_cons,
        List.take_zero, List.map_cons, List.map_nil, List.sum_cons, List.sum_nil]
      omega

/-- C1: the budget-enforcement step estimates each file at `byte_size / 4`
(`get_file_size_estimate`, folded into `sortedCandidates`), stably sorts
the candidates ascending by that estimate, accepts a prefix of the sorted
list greedily (never reconsidering files after the first miss), stops at
the first file whose acceptance would exceed the budget, and the total
estimate of the returned files never exceeds the budget. -/
theorem enforce_budget_spec (fs : FS) (file_paths : List String) (B : Nat) :
    ((enforce_budget fs file_paths B).map (get_file_size_estimate fs)).sum ≤ B
    ∧ (sortedCandidates fs file_paths).Perm
        (file_paths.map (fun p => (p, get_file_size_estimate fs p)))
    ∧ (sortedCandidates fs file_paths).Pairwise (fun a b => a.2 ≤ b.2)
    ∧ enforce_budget fs file_paths B <+: (sortedCandidates fs file_paths).map Prod.fst
    ∧ ((enforce_budget fs file_paths B).length < (sortedCandidates fs file_paths).length →
        B < (((sortedCandidates fs file_paths).take
              ((enforce_budget fs file_paths B).length + 1)).map Prod.snd).sum) := by
  have hperm : (sortedCandidates fs file_paths).Perm
      (file_paths.map (fun p => (p, get_file_size_estimate fs p))) :=
    sortBySize_perm _
  refine ⟨?_, hperm, sortBySize_sorted _, budgetLoop_isPrefix B _ 0, ?_⟩
  · have hmem : ∀ p ∈ sortedCandidates fs file_paths,
        p.2 = get_file_size_estimate fs p.1 := by
      intro p hp
      have := hperm.mem_iff.1 hp
      obtain ⟨a, _, rfl⟩ := List.mem_map.1 this
      rfl
    simpa using budgetLoop_sum fs B (sortedCandidates fs file_paths) 0 hmem (Nat.zero_le B)
  · intro h
    simpa using budgetLoop_stop B (sortedCandidates fs file_paths) 0 h

/-- Witness for C1 at the spec scenario: budget 100 with estimated costs
60 and 40: only the 50-token file is kept and the next file would
overflow. -/
theorem enforce_budget_spec_witness :
    ((enforce_budget exFS1 ["a", "b"] 100).map (get_file_size_estimate exFS1)).sum ≤ 100
    ∧ 100 < (((sortedCandidates exFS1 ["a", "b"]).take
          ((enforce_budget exFS1 ["a", "b"] 100).length + 1)).map Prod.snd).sum :=
  ⟨(enforce_budget_spec exFS1 ["a", "b"] 100).1,
   (enforce_budget_spec exFS1 ["a", "b"] 100).2.2.2.2 (by decide)⟩

theorem classifyFile_mem_keys7 (p : String) : classifyFile p ∈ keys7 := by
  unfold classifyFile
  dsimp only
  repeat' split
  all_goals decide

theorem bumpCount_keys (patterns : List (String × Nat)) (k : String) :
    (bumpCount patterns k).map Prod.fst = patterns.map Prod.fst := by
  induction patterns with
  | nil => rfl
  | cons p rest ih =>
    simp only [bumpCount, List.map_cons] at ih ⊢
    split <;> simp_all

theorem bumpCount_sum (patterns : List (String × Nat)) (k : String) :
    ((bumpCount patterns k).map Prod.snd).sum
      = (patterns.map Prod.snd).sum + (patterns.map Prod.fst).count k := by
  induction patterns with
  | nil => rfl
  | cons p rest ih =>
    simp only [bumpCount, List.map_cons, List.sum_cons, List.count_cons] at ih ⊢
    split
    · rename_i h
      subst h
      rw [ih]
      simp
      omega
    · rename_i h
      rw [ih]
      have hk : (k == p.1) = false := by
        simp only [beq_eq_false_iff_ne, ne_eq]
        intro hx
        exact h hx.symm
      have hk2 : (p.1 == k) = false := by
        simp only [beq_eq_false_iff_ne, ne_eq]
        exact h
      simp [hk, hk2, h]
      omega

theorem count_keys7 : ∀ k ∈ keys7, keys7.count k = 1 := by decide

theorem analyze_fold (file_paths : List String) :
    ∀ (pats : List (String × Nat)) (det : List (String × String)),
      pats.map Prod.fst = keys7 →
      ((file_paths.foldl
        (fun st path =>
          let file_type := classifyFile path
          (bumpCount st.1 file_type, st.2 ++ [(path, file_type)]))
        (pats, det)).1.map Prod.fst = keys7
      ∧ ((file_paths.foldl
          (fun st path =>
            let file_type := classifyFile path
            (bumpCount st.1 file_type, st.2 ++ [(path, file_type)]))
          (pats, det)).1.map Prod.snd).sum
          = (pats.map Prod.snd).sum + file_paths.length
      ∧ (file_paths.foldl
          (fun st path =>
            let file_type := classifyFile path
            (bumpCount st.1 file_type, st.2 ++ [(path, file_type)]))
          (pats, det)).2
          = det ++ file_paths.map (fun p => (p, classifyFile p))) := by
  induction file_paths with
  | nil => intro pats det h; simpa using h
  | cons p ps ih =>
    intro pats det h
    simp only [List.foldl_cons]
    have hkeys : (bumpCount pats (classifyFile p)).map Prod.fst = keys7 := by
      rw [bumpCount_keys]; exact h
    obtain ⟨h1, h2, h3⟩ := ih (bumpCount pats (classifyFile p)) (det ++ [(p, classifyFile p)]) hkeys
    refine ⟨h1, ?_, ?_⟩
    · rw [h2, bumpCount_sum, h, count_keys7 _ (classifyFile_mem_keys7 p)]
      simp only [List.length_cons]
      omega
    · rw [h3]
      simp

/-- C10: `analyze_file_patterns` classifies every path by first-match-wins
into exactly one of the seven categories (with `other` as default), the
dictionary keeps exactly the seven keys in insertion order, the per-type
counts sum to `total_files` (which is the number of input paths), and the
details list records each input path exactly once, in order, with its
classification. -/
theorem analyze_file_patterns_spec (file_paths : List String) :
    (analyze_file_patterns file_paths).patterns.map Prod.fst = keys7
    ∧ ((analyze_file_patterns file_paths).patterns.map Prod.snd).sum
        = (analyze_file_patterns file_paths).total_files
    ∧ (analyze_file_patterns file_paths).total_files = file_paths.length
    ∧ (analyze_file_patterns file_paths).details
        = file_paths.map (fun p => (p, classifyFile p))
    ∧ ∀ p : String, classifyFile p ∈ keys7 := by
  obtain ⟨h1, h2, h3⟩ := analyze_fold file_paths initPatterns [] (by decide)
  refine ⟨h1, ?_, rfl, by simpa using h3, classifyFile_mem_keys7⟩
  show ((analyze_file_patterns file_paths).patterns.map Prod.snd).sum = file_paths.length
  rw [show (analyze_file_patterns file_paths).patterns
      = (file_paths.foldl
          (fun st path =>
            let file_type := classifyFile path
            (bumpCount st.1 file_type, st.2 ++ [(path, file_type)]))
          (initPatterns, ([] : List (String × String)))).1 from rfl, h2]
  have h0 : (initPatterns.map Prod.snd).sum = 0 := by decide
  omega

theorem le_maxCount {patterns : List (String × Nat)} :
    ∀ p ∈ patterns, p.2 ≤ maxCount patterns := by
  induction patterns with
  | nil => intro p hp; cases hp
  | cons q rest ih =>
    intro p hp
    rcases List.mem_cons.1 hp with rfl | hp
    · simp only [maxCount, List.map_cons, List.foldr_cons]
      exact Nat.le_max_left _ _
    · simp only [maxCount, List.map_cons, List.foldr_cons]
      exact Nat.le_trans (ih p hp) (Nat.le_max_right _ _)

theorem findArea_spec (m : Nat) :
    ∀ l : List (String × Nat),
      (findArea m l = none ∧ ∀ p ∈ l, p.1 = "other" ∨ p.2 ≠ m)
      ∨ (∃ a l₁ l₂, findArea m l = some a ∧ l = l₁ ++ (a, m) :: l₂ ∧ a ≠ "other"
          ∧ ∀ p ∈ l₁, p.1 = "other" ∨ p.2 ≠ m) := by
  intro l
  induction l with
  | nil => exact Or.inl ⟨rfl, by intro p hp; cases hp⟩
  | cons q rest ih =>
    obtain ⟨area, count⟩ := q
    by_cases hq : count = m ∧ area ≠ "other"
    · refine Or.inr ⟨area, [], rest, ?_, ?_, hq.2, by intro p hp; cases hp⟩
      · simp [findArea, hq]
      · simp [hq.1]
    · have hrec : findArea m ((area, count) :: rest) = findArea m rest := by
        simp [findArea, hq]
      have hshift : (area, count).1 = "other" ∨ (area, count).2 ≠ m := by
        by_cases hc : count = m
        · by_cases ha : area = "other"
          · exact Or.inl ha
          · exact absurd ⟨hc, ha⟩ hq
        · exact Or.inr hc
      rcases ih with ⟨hnone, hall⟩ | ⟨a, l₁, l₂, hfind, hsplit, hno, hall⟩
      · refine Or.inl ⟨hrec.trans hnone, ?_⟩
        intro p hp
        rcases List.mem_cons.1 hp with rfl | hp
        · exact hshift
        · exact hall p hp
      · refine Or.inr ⟨a, (area, count) :: l₁, l₂, hrec.trans hfind, by simp [hsplit], hno, ?_⟩
        intro p hp
        rcases List.mem_cons.1 hp with rfl | hp
        · exact hshift
        · exact hall p hp

/-- C2 counterexample: on `["api/x.py", "a.bin", "b.bin"]` the `api`
category holds the strict maximum count (1) among the non-`other`
categories, and not all counts are zero, yet `determine_work_area`
returns `general` (because `other`, with count 2, holds the overall
maximum), contradicting both the claimed return value (`api`) and the
claim that `general` is returned only when all counts are zero. -/
theorem determine_work_area_counterexample :
    determine_work_area (analyze_file_patterns ["api/x.py", "a.bin", "b.bin"]) = "general"
    ∧ (analyze_file_patterns ["api/x.py", "a.bin", "b.bin"]).patterns
      = [("api", 1), ("frontend", 0), ("database", 0), ("tests", 0), ("config", 0),
         ("docs", 0), ("other", 2)] := by
  constructor
  · rfl
  · rfl

/-- C2 amended: `determine_work_area` takes the maximum count over all
seven categories, `other` included; when that maximum is zero it returns
`general`; otherwise it returns the first non-`other` category in
dictionary insertion order whose count equals the overall maximum (ties
broken by that order), and returns `general` when no non-`other` category
attains the overall maximum. -/
theorem determine_work_area_amended (file_paths : List String) :
    (∀ p ∈ (analyze_file_patterns file_paths).patterns,
        p.2 ≤ maxCount (analyze_file_patterns file_paths).patterns)
    ∧ (maxCount (analyze_file_patterns file_paths).patterns = 0 →
        determine_work_area (analyze_file_patterns file_paths) = "general")
    ∧ (maxCount (analyze_file_patterns file_paths).patterns ≠ 0 →
        (determine_work_area (analyze_file_patterns file_paths) = "general"
          ∧ ∀ p ∈ (analyze_file_patterns file_paths).patterns,
              p.1 = "other" ∨ p.2 ≠ maxCount (analyze_file_patterns file_paths).patterns)
        ∨ (∃ l₁ l₂, (analyze_file_patterns file_paths).patterns
              = l₁ ++ (determine_work_area (analyze_file_patterns file_paths),
                       maxCount (analyze_file_patterns file_paths).patterns) :: l₂
            ∧ determine_work_area (analyze_file_patterns file_paths) ≠ "other"
            ∧ ∀ p ∈ l₁, p.1 = "other"
                ∨ p.2 ≠ maxCount (analyze_file_patterns file_paths).patterns)) := by
  refine ⟨le_maxCount, ?_, ?_⟩
  · intro h
    simp [determine_work_area, h]
  · intro h
    rcases findArea_spec (maxCount (analyze_file_patterns file_paths).patterns)
        (analyze_file_patterns file_paths).patterns with
      ⟨hnone, hall⟩ | ⟨a, l₁, l₂, hfind, hsplit, hno, hall⟩
    · exact Or.inl ⟨by simp [determine_work_area, h, hnone], hall⟩
    · have hda : determine_work_area (analyze_file_patterns file_paths) = a := by
        simp [determine_work_area, h, hfind]
      exact Or.inr ⟨l₁, l₂, by rw [hda]; exact hsplit, by rw [hda]; exact hno, hall⟩

/-- Witness for C2 amended at `["api/a.py"]`: the maximum is 1, attained
by `api`, and the characterization picks out `api` as the first attaining
non-`other` category. -/
theorem determine_work_area_amended_witness :
    ((1 : Nat) ≤ maxCount (analyze_file_patterns ["api/a.py"]).patterns)
    ∧ ((determine_work_area (analyze_file_patterns ["api/a.py"]) = "general"
          ∧ ∀ p ∈ (analyze_file_patterns ["api/a.py"]).patterns,
              p.1 = "other" ∨ p.2 ≠ maxCount (analyze_file_patterns ["api/a.py"]).patterns)
        ∨ (∃ l₁ l₂, (analyze_file_patterns ["api/a.py"]).patterns
              = l₁ ++ (determine_work_area (analyze_file_patterns ["api/a.py"]),
                       maxCount (analyze_file_patterns ["api/a.py"]).patterns) :: l₂
            ∧ determine_work_area (analyze_file_patterns ["api/a.py"]) ≠ "other"
            ∧ ∀ p ∈ l₁, p.1 = "other"
                ∨ p.2 ≠ maxCount (analyze_file_patterns ["api/a.py"]).patterns)) :=
  ⟨(determine_work_area_amended ["api/a.py"]).1 ("api", 1) (by decide),
   (determine_work_area_amended ["api/a.py"]).2.2 (by decide)⟩

theorem insertByFile_perm (x : Question) (l : List Question) :
    (insertByFile x l).Perm (x :: l) := by
  induction l with
  | nil => simp [insertByFile]
  | cons y ys ih =>
    simp only [insertByFile]
    split
    · exact List.Perm.refl _
    · exact (List.Perm.cons y ih).trans (List.Perm.swap x y ys)

theorem sortByFile_perm (l : List Question) : (sortByFile l).Perm l := by
  induction l with
  | nil => simp [sortByFile]
  | cons x xs ih => exact (insertByFile_perm x (sortByFile xs)).trans (List.Perm.cons x ih)

theorem sortByFile_length (l : List Question) : (sortByFile l).length = l.length :=
  (sortByFile_perm l).length_eq

theorem mem_insertByFile {b x : Question} {l : List Question} :
    b ∈ insertByFile x l ↔ b = x ∨ b ∈ l := by
  rw [(insertByFile_perm x l).mem_iff, List.mem_cons]

theorem charsLt_trans :
    ∀ a b c : List Char, charsLt a b = true → charsLt b c = true → charsLt a c = true := by
  intro a
  induction a with
  | nil =>
    intro b c h1 h2
    cases b with
    | nil => simp [charsLt] at h1
    | cons y ys =>
      cases c with
      | nil => simp [charsLt] at h2
      | cons z zs => simp [charsLt]
  | cons x xs ih =>
    intro b c h1 h2
    cases b with
    | nil => simp [charsLt] at h1
    | cons y ys =>
      cases c with
      | nil => simp [charsLt] at h2
      | cons z zs =>
        simp only [charsLt] at h1 h2 ⊢
        split_ifs at h1 h2 ⊢ <;>
          first
          | rfl
          | omega
          | exact ih ys zs h1 h2

theorem charsLt_asymm :
    ∀ a b : List Char, charsLt a b = true → charsLt b a = false := by
  intro a
  induction a with
  | nil =>
    intro b h
    cases b with
    | nil => simp [charsLt] at h
    | cons y ys => simp [charsLt]
  | cons x xs ih =>
    intro b h
    cases b with
    | nil => simp [charsLt] at h
    | cons y ys =>
      simp only [charsLt] at h ⊢
      split_ifs at h ⊢ <;>
        first
        | rfl
        | omega
        | exact ih ys h

theorem insertByFile_sorted (x : Question) {l : List Question}
    (h : l.Pairwise (fun a b => strLt b.file a.file = false)) :
    (insertByFile x l).Pairwise (fun a b => strLt b.file a.file = false) := by
  induction l with
  | nil => simp [insertByFile]
  | cons y ys ih =>
    rw [List.pairwise_cons] at h
    simp only [insertByFile]
    split
    · rename_i hlt
      refine List.Pairwise.cons ?_ (List.Pairwise.cons h.1 h.2)
      intro b hb
      rcases List.mem_cons.1 hb with rfl | hb
      · exact charsLt_asymm _ _ hlt
      · have hyb := h.1 b hb
        simp only [strLt] at hlt hyb ⊢
        cases hbx : charsLt b.file.data x.file.data
        · rfl
        · exact absurd (charsLt_trans _ _ _ hbx hlt) (by simp [hyb])
    · rename_i hge
      refine List.Pairwise.cons ?_ (ih h.2)
      intro b hb
      rcases mem_insertByFile.1 hb with rfl | hb
      · simpa using hge
      · exact h.1 b hb

theorem sortByFile_sorted (l : List Question) :
    (sortByFile l).Pairwise (fun a b => strLt b.file a.file = false) := by
  induction l with
  | nil => simp [sortByFile]
  | cons x xs ih => exact insertByFile_sorted x ih

theorem emitEntries_count :
    ∀ (qs : List Question) (c : Nat), c ≤ 12 →
      (emitEntries qs c).2 = c + min qs.length (12 - c) := by
  intro qs
  induction qs with
  | nil => intro c _; simp [emitEntries]
  | cons q rest ih =>
    intro c h
    by_cases h12 : 12 ≤ c
    · have hc : c = 12 := Nat.le_antisymm h h12
      subst hc
      simp [emitEntries]
    · simp only [emitEntries, if_neg h12]
      rw [ih (c + 1) (by omega)]
      simp only [List.length_cons]
      omega

theorem renderLoop_count (qbt : String → List Question) :
    ∀ (types : List String) (c : Nat), c ≤ 12 →
      (renderLoop qbt types c).2 = c + (contributionsLoop qbt types c).sum
      ∧ (renderLoop qbt types c).2 ≤ 12 := by
  intro types
  induction types with
  | nil => intro c h; simp [renderLoop, contributionsLoop, h]
  | cons qtype rest ih =>
    intro c h
    by_cases hcond : qbt qtype ≠ [] ∧ c < 12
    · simp only [renderLoop, contributionsLoop, if_pos hcond]
      have hemit : (emitEntries ((sortByFile (qbt qtype)).take (min 4 (12 - c))) c).2
          = c + min (min 4 (12 - c)) (qbt qtype).length := by
        rw [emitEntries_count _ c h, List.length_take, sortByFile_length]
        omega
      rw [hemit]
      obtain ⟨ih1, ih2⟩ := ih (c + min (min 4 (12 - c)) (qbt qtype).length) (by omega)
      rw [ih1]
      refine ⟨by simp [List.sum_cons]; omega, by omega⟩
    · simp only [renderLoop, contributionsLoop, if_neg hcond]
      obtain ⟨ih1, ih2⟩ := ih c h
      exact ⟨by rw [ih1]; simp, ih2⟩

theorem contributionsLoop_le4 (qbt : String → List Question) :
    ∀ (types : List String) (c : Nat), ∀ n ∈ contributionsLoop qbt types c, n ≤ 4 := by
  intro types
  induction types with
  | nil => intro c n hn; cases hn
  | cons qtype rest ih =>
    intro c n hn
    by_cases hcond : qbt qtype ≠ [] ∧ c < 12
    · simp only [contributionsLoop, if_pos hcond] at hn
      rcases List.mem_cons.1 hn with rfl | hn
      · omega
      · exact ih _ n hn
    · simp only [contributionsLoop, if_neg hcond] at hn
      rcases List.mem_cons.1 hn with rfl | hn
      · omega
      · exact ih _ n hn

theorem contributionsLoop_le_total (qbt : String → List Question) :
    ∀ (types : List String) (c : Nat),
      (contributionsLoop qbt types c).sum ≤ (types.map (fun t => (qbt t).length)).sum := by
  intro types
  induction types with
  | nil => intro c; simp [contributionsLoop]
  | cons qtype rest ih =>
    intro c
    by_cases hcond : qbt qtype ≠ [] ∧ c < 12
    · simp only [contributionsLoop, if_pos hcond, List.map_cons, List.sum_cons]
      have := ih (c + min (min 4 (12 - c)) (qbt qtype).length)
      omega
    · simp only [contributionsLoop, if_neg hcond, List.map_cons, List.sum_cons]
      have := ih c
      omega

theorem sum_priority_eq_sum_pattern (f : String → Nat) :
    (priorityTypes.map f).sum = (patternTypes.map f).sum := by
  simp only [priorityTypes, patternTypes, List.map_cons, List.map_nil, List.sum_cons,
    List.sum_nil]
  omega

/-- C3: the rendering of the mined open questions counts at most 12
numbered entries in total, at most 4 per marker type (marker types walked
in the fixed priority order `priorityTypes`), never renders more entries
than were mined, keeps each type section sorted by source path, appends
the `... and N more` note exactly when the true count exceeds the
rendered count, and returns the fixed placeholder when no annotation was
found anywhere. -/
theorem mine_open_questions_cap (fs : FS) (matcher : Matcher)
    (file_paths : List String) (commits : List CommitRec) :
    (renderLoop (questionsFor fs matcher file_paths commits) priorityTypes 0).2 ≤ 12
    ∧ (renderLoop (questionsFor fs matcher file_paths commits) priorityTypes 0).2
        = (contributionsLoop (questionsFor fs matcher file_paths commits) priorityTypes 0).sum
    ∧ (∀ n ∈ contributionsLoop (questionsFor fs matcher file_paths commits) priorityTypes 0,
        n ≤ 4)
    ∧ (renderLoop (questionsFor fs matcher file_paths commits) priorityTypes 0).2
        ≤ (patternTypes.map
            (fun t => (questionsFor fs matcher file_paths commits t).length)).sum
    ∧ (∀ t, (sortByFile (questionsFor fs matcher file_paths commits t)).Pairwise
        (fun a b => strLt b.file a.file = false))
    ∧ ((∀ t ∈ patternTypes, questionsFor fs matcher file_paths commits t = []) →
        mine_open_questions fs matcher file_paths commits = noQuestionsPlaceholder)
    ∧ ((renderLoop (questionsFor fs matcher file_paths commits) priorityTypes 0).2
          < (patternTypes.map
              (fun t => (questionsFor fs matcher file_paths commits t).length)).sum →
        mine_open_questions fs matcher file_paths commits
          = joinNL (("## Open Questions\n"
              :: (renderLoop (questionsFor fs matcher file_paths commits) priorityTypes 0).1)
            ++ ["*... and "
                ++ toString ((patternTypes.map
                      (fun t => (questionsFor fs matcher file_paths commits t).length)).sum
                    - (renderLoop (questionsFor fs matcher file_paths commits) priorityTypes 0).2)
                ++ " more questions found*"])) := by
  obtain ⟨hcount, hle⟩ :=
    renderLoop_count (questionsFor fs matcher file_paths commits) priorityTypes 0 (by omega)
  refine ⟨hle, by simpa using hcount, contributionsLoop_le4 _ _ _, ?_, ?_, ?_, ?_⟩
  · rw [hcount]
    have h1 := contributionsLoop_le_total (questionsFor fs matcher file_paths commits)
      priorityTypes 0
    have h2 := sum_priority_eq_sum_pattern
      (fun t => (questionsFor fs matcher file_paths commits t).length)
    omega
  · intro t; exact sortByFile_sorted _
  · intro hempty
    have hall : patternTypes.all
        (fun t => (questionsFor fs matcher file_paths commits t).isEmpty) = true := by
      rw [List.all_eq_true]
      intro t ht
      rw [List.isEmpty_iff]
      exact hempty t ht
    simp [mine_open_questions, hall]
  · intro hlt
    have hne : ¬ patternTypes.all
        (fun t => (questionsFor fs matcher file_paths commits t).isEmpty) = true := by
      intro hall
      rw [List.all_eq_true] at hall
      have hz : (patternTypes.map
          (fun t => (questionsFor fs matcher file_paths commits t).length)).sum = 0 := by
        rw [List.sum_eq_zero_iff]
        intro n hn
        obtain ⟨t, ht, rfl⟩ := List.mem_map.1 hn
        have := hall t ht
        rw [List.isEmpty_iff] at this
        simp [this]
      omega
    simp only [mine_open_questions, if_neg hne]
    rw [if_pos hlt]

/-- Witness for C3: with five TODO captures on one line, four entries are
rendered (per-type cap), the total is five, and the trailing note counts
the one unrendered entry; with no files and no matches the fixed
placeholder is returned. -/
theorem mine_open_questions_cap_witness :
    (renderLoop (questionsFor fsW matcherW ["f.py"] []) priorityTypes 0).2 ≤ 12
    ∧ mine_open_questions fsW matcherW ["f.py"] []
        = joinNL (("## Open Questions\n"
            :: (renderLoop (questionsFor fsW matcherW ["f.py"] []) priorityTypes 0).1)
          ++ ["*... and "
              ++ toString ((patternTypes.map
                    (fun t => (questionsFor fsW matcherW ["f.py"] [] t).length)).sum
                  - (renderLoop (questionsFor fsW matcherW ["f.py"] []) priorityTypes 0).2)
              ++ " more questions found*"])
    ∧ mine_open_questions fs0 matcher0 [] [] = noQuestionsPlaceholder :=
  ⟨(mine_open_questions_cap fsW matcherW ["f.py"] []).1,
   (mine_open_questions_cap fsW matcherW ["f.py"] []).2.2.2.2.2.2 (by decide),
   (mine_open_questions_cap fs0 matcher0 [] []).2.2.2.2.2.1 (by decide)⟩

theorem ite_some_eq {α : Type} (c : Prop) [Decidable c] (a q : α) :
    ((if c then some a else none) = some q) ↔ (c ∧ q = a) := by
  split
  · rename_i hc; simp [hc, eq_comm]
  · rename_i hc; simp [hc]

theorem mem_enumFrom {α : Type} :
    ∀ (l : List α) (n i : Nat) (x : α),
      ((i, x) ∈ enumFrom n l ↔ n ≤ i ∧ l[i - n]? = some x) := by
  intro l
  induction l with
  | nil => intro n i x; simp [enumFrom]
  | cons y ys ih =>
    intro n i x
    simp only [enumFrom, List.mem_cons]
    constructor
    · rintro (h | h)
      · rw [Prod.mk.injEq] at h
        obtain ⟨rfl, rfl⟩ := h
        exact ⟨Nat.le_refl i, by simp⟩
      · obtain ⟨hle, hget⟩ := (ih (n + 1) i x).1 h
        refine ⟨by omega, ?_⟩
        have hin : i - n = (i - (n + 1)) + 1 := by omega
        rw [hin]
        simpa using hget
    · rintro ⟨hle, hget⟩
      by_cases hi : i = n
      · subst hi
        simp only [Nat.sub_self, List.getElem?_cons_zero, Option.some.injEq] at hget
        exact Or.inl (by simp [hget])
      · right
        apply (ih (n + 1) i x).2
        refine ⟨by omega, ?_⟩
        have hin : i - n = (i - (n + 1)) + 1 := by omega
        rw [hin] at hget
        simpa using hget

theorem mem_lineQuestions {matcher : Matcher} {ptype path : String} {i : Nat}
    {raw : String} {q : Question} :
    q ∈ lineQuestions matcher ptype path i raw ↔
      ∃ m, m ∈ matcher ptype (truncLine raw) ∧ 5 < pyLen (cleanMatch m)
        ∧ q = ⟨cleanMatch m, path, i, stripContext (truncLine raw)⟩ := by
  simp only [lineQuestions, List.mem_filterMap, ite_some_eq]

theorem mem_fileQuestions {fs : FS} {matcher : Matcher} {ptype path : String}
    {q : Question} :
    q ∈ fileQuestions fs matcher ptype path ↔
      ∃ r, fs path = some r ∧ r.size ≤ 2 * 1024 * 1024
        ∧ ∃ lines, r.content = some lines
        ∧ ∃ i raw, 1 ≤ i ∧ lines[i - 1]? = some raw
        ∧ q ∈ lineQuestions matcher ptype path i raw := by
  cases hfs : fs path with
  | none => simp [fileQuestions, hfs]
  | some r =>
    simp only [fileQuestions, hfs, Option.some.injEq]
    by_cases hsz : 2 * 1024 * 1024 < r.size
    · rw [if_pos hsz]
      constructor
      · intro h; cases h
      · rintro ⟨r', rfl, hsize, _⟩
        omega
    · rw [if_neg hsz]
      cases hc : r.content with
      | none =>
        constructor
        · intro h; cases h
        · rintro ⟨r', rfl, hsize, lines, hcont, _⟩
          rw [hc] at hcont
          cases hcont
      | some lines =>
        simp only [List.mem_flatMap]
        constructor
        · rintro ⟨⟨i, raw⟩, hmem, hq⟩
          obtain ⟨hle, hget⟩ := (mem_enumFrom lines 1 i raw).1 hmem
          exact ⟨r, rfl, by omega, lines, hc, i, raw, hle, hget, hq⟩
        · rintro ⟨r', rfl, hsize, lines', hcont, i, raw, hi, hget, hq⟩
          rw [hc] at hcont
          cases hcont
          exact ⟨(i, raw), (mem_enumFrom lines 1 i raw).2 ⟨hi, hget⟩, hq⟩

theorem mem_scanFileQuestions {fs : FS} {matcher : Matcher} {ptype : String}
    {file_paths : List String} {q : Question} :
    q ∈ scanFileQuestions fs matcher ptype file_paths ↔
      ∃ path, path ∈ file_paths.take 15 ∧ q ∈ fileQuestions fs matcher ptype path := by
  simp [scanFileQuestions, List.mem_flatMap]

theorem mem_commitQuestions {matcher : Matcher} {ptype : String}
    {commits : List CommitRec} {q : Question} :
    q ∈ commitQuestions matcher ptype commits ↔
      ∃ c, c ∈ commits
        ∧ ∃ m, m ∈ matcher ptype (c.subject ++ " " ++ c.body)
          ∧ 5 < pyLen (cleanMatch m)
          ∧ q = ⟨cleanMatch m, "Commit " ++ pySlice c.hash 8, 0, c.subject⟩ := by
  simp only [commitQuestions, List.mem_flatMap, List.mem_filterMap, ite_some_eq]

/-- C9: a regex capture becomes an annotation entry exactly when its text,
stripped of whitespace and trailing punctuation, is longer than 5
characters; file entries carry the 1-based line number of their (first 15
files, at most 2MB, decodable) source line and the 80-character
ellipsis-truncated context snippet of the 200-character-truncated line;
commit entries carry line number 0 and the abbreviated hash; and in
particular every mined entry has more than 5 (hence at least 5)
significant characters. -/
theorem annotation_capture (fs : FS) (matcher : Matcher) (file_paths : List String)
    (commits : List CommitRec) (ptype : String) :
    (∀ q : Question,
      q ∈ questionsFor fs matcher file_paths commits ptype ↔
        ((∃ path, path ∈ file_paths.take 15
           ∧ ∃ r, fs path = some r ∧ r.size ≤ 2 * 1024 * 1024
           ∧ ∃ lines, r.content = some lines
           ∧ ∃ i raw, 1 ≤ i ∧ lines[i - 1]? = some raw
           ∧ ∃ m, m ∈ matcher ptype (truncLine raw) ∧ 5 < pyLen (cleanMatch m)
             ∧ q = ⟨cleanMatch m, path, i, stripContext (truncLine raw)⟩)
         ∨ (∃ c, c ∈ commits
           ∧ ∃ m, m ∈ matcher ptype (c.subject ++ " " ++ c.body)
             ∧ 5 < pyLen (cleanMatch m)
             ∧ q = ⟨cleanMatch m, "Commit " ++ pySlice c.hash 8, 0, c.subject⟩)))
    ∧ ∀ q ∈ questionsFor fs matcher file_paths commits ptype, 5 < pyLen q.text := by
  have main : ∀ q : Question,
      q ∈ questionsFor fs matcher file_paths commits ptype ↔
        ((∃ path, path ∈ file_paths.take 15
           ∧ ∃ r, fs path = some r ∧ r.size ≤ 2 * 1024 * 1024
           ∧ ∃ lines, r.content = some lines
           ∧ ∃ i raw, 1 ≤ i ∧ lines[i - 1]? = some raw
           ∧ ∃ m, m ∈ matcher ptype (truncLine raw) ∧ 5 < pyLen (cleanMatch m)
             ∧ q = ⟨cleanMatch m, path, i, stripContext (truncLine raw)⟩)
         ∨ (∃ c, c ∈ commits
           ∧ ∃ m, m ∈ matcher ptype (c.subject ++ " " ++ c.body)
             ∧ 5 < pyLen (cleanMatch m)
             ∧ q = ⟨cleanMatch m, "Commit " ++ pySlice c.hash 8, 0, c.subject⟩)) := by
    intro q
    rw [questionsFor, List.mem_append, mem_scanFileQuestions, mem_commitQuestions]
    apply or_congr _ Iff.rfl
    constructor
    · rintro ⟨path, hp, hq⟩
      rw [mem_fileQuestions] at hq
      obtain ⟨r, hr, hsz, lines, hcont, i, raw, hi, hget, hl⟩ := hq
      rw [mem_lineQuestions] at hl
      obtain ⟨m, hm, hlen, rfl⟩ := hl
      exact ⟨path, hp, r, hr, hsz, lines, hcont, i, raw, hi, hget, m, hm, hlen, rfl⟩
    · rintro ⟨path, hp, r, hr, hsz, lines, hcont, i, raw, hi, hget, m, hm, hlen, rfl⟩
      refine ⟨path, hp, ?_⟩
      rw [mem_fileQuestions]
      exact ⟨r, hr, hsz, lines, hcont, i, raw, hi, hget,
        mem_lineQuestions.2 ⟨m, hm, hlen, rfl⟩⟩
  refine ⟨main, ?_⟩
  intro q hq
  rcases (main q).1 hq with
    ⟨path, _, r, _, _, lines, _, i, raw, _, _, m, _, hlen, rfl⟩
    | ⟨c, _, m, _, hlen, rfl⟩
  · exact hlen
  · exact hlen

/-- Witness for C9: the entry mined from `# TODO: refactor this later` is
a member of the TODO list of `fsW` and its text has more than 5
significant characters. -/
theorem annotation_capture_witness : 5 < pyLen qW.text :=
  (annotation_capture fsW matcherW ["f.py"] [] "TODO").2 qW (by decide)

theorem lookupKey_setKey_self {α : Type} (m : List (String × α)) (k : String) (v : α) :
    lookupKey (setKey m k v) k = some v := by
  induction m with
  | nil => simp [setKey, lookupKey]
  | cons p rest ih =>
    obtain ⟨k0, v0⟩ := p
    by_cases h : k0 = k
    · simp [setKey, lookupKey, h]
    · simp [setKey, lookupKey, h, ih]

theorem lookupKey_setKey_ne {α : Type} (m : List (String × α)) (k k' : String) (v : α)
    (h : k' ≠ k) : lookupKey (setKey m k v) k' = lookupKey m k' := by
  induction m with
  | nil => simp [setKey, lookupKey, Ne.symm h]
  | cons p rest ih =>
    obtain ⟨k0, v0⟩ := p
    by_cases h0 : k0 = k
    · subst h0
      simp [setKey, lookupKey, Ne.symm h]
    · simp [setKey, lookupKey, h0, ih]

theorem applyContextOverrides_focus (v : Vars) (ec : EnhancedContext) (f : String)
    (h1 : ec.focus = some f) (h2 : f ≠ "") :
    lookupKey (applyContextOverrides v ec) "primary_focus" = some (.s f) := by
  have hne1 : ("primary_focus" : String) ≠ "expected_outputs" := by decide
  have hne2 : ("primary_focus" : String) ≠ "constraints" := by decide
  have ht : truthy (some f) = true := by simpa [truthy] using h2
  simp only [applyContextOverrides, h1, Option.getD_some]
  rw [if_pos ht]
  by_cases ho : truthy ec.output = true
  · rw [if_pos ho]
    by_cases hc : truthy ec.constraints = true
    · rw [if_pos hc, lookupKey_setKey_ne _ _ _ _ hne2, lookupKey_setKey_ne _ _ _ _ hne1,
        lookupKey_setKey_self]
    · rw [if_neg hc, lookupKey_setKey_ne _ _ _ _ hne1, lookupKey_setKey_self]
  · rw [if_neg ho]
    by_cases hc : truthy ec.constraints = true
    · rw [if_pos hc, lookupKey_setKey_ne _ _ _ _ hne2, lookupKey_setKey_self]
    · rw [if_neg hc, lookupKey_setKey_self]

theorem applyContextOverrides_output (v : Vars) (ec : EnhancedContext) (o : String)
    (h1 : ec.output = some o) (h2 : o ≠ "") :
    lookupKey (applyContextOverrides v ec) "expected_outputs" = some (.s o) := by
  have hne : ("expected_outputs" : String) ≠ "constraints" := by decide
  have ht : truthy (some o) = true := by simpa [truthy] using h2
  simp only [applyContextOverrides, h1, Option.getD_some]
  rw [if_pos ht]
  by_cases hc : truthy ec.constraints = true
  · rw [if_pos hc, lookupKey_setKey_ne _ _ _ _ hne, lookupKey_setKey_self]
  · rw [if_neg hc, lookupKey_setKey_self]

theorem applyContextOverrides_constraints (v : Vars) (ec : EnhancedContext) (c : String)
    (h1 : ec.constraints = some c) (h2 : c ≠ "") :
    lookupKey (applyContextOverrides v ec) "constraints" = some (.s c) := by
  have ht : truthy (some c) = true := by simpa [truthy] using h2
  simp only [applyContextOverrides, h1, Option.getD_some]
  rw [if_pos ht, lookupKey_setKey_self]

theorem lookupKey_normalizeTaskList_ne (v : Vars) (key : String)
    (h : key ≠ "task_list") :
    lookupKey (normalizeTaskList v) key = lookupKey v key := by
  unfold normalizeTaskList
  split
  · rw [lookupKey_setKey_ne _ _ _ _ h]
  · rfl

theorem resolve_as_pipeline (persona : PersonaConfig) (thread_data : ThreadData)
    (file_categories : List String) (ec : EnhancedContext) :
    ∃ v2 : Vars, resolve_template_vars persona thread_data file_categories ec
      = normalizeTaskList (applyContextOverrides v2 ec) :=
  ⟨_, rfl⟩

/-- C5: whenever the enhanced context supplies a truthy focus, output or
constraints value, the variable map returned by `resolve_template_vars`
binds `primary_focus`, `expected_outputs` and `constraints` to exactly
those CLI-supplied values: the unconditional overrides run after the
template rule and the goal modifiers, and the only later step only
touches `task_list`. -/
theorem resolve_template_vars_override_spec (persona : PersonaConfig)
    (thread_data : ThreadData) (file_categories : List String) (ec : EnhancedContext) :
    (∀ f, ec.focus = some f → f ≠ "" →
      lookupKey (resolve_template_vars persona thread_data file_categories ec)
        "primary_focus" = some (.s f))
    ∧ (∀ o, ec.output = some o → o ≠ "" →
      lookupKey (resolve_template_vars persona thread_data file_categories ec)
        "expected_outputs" = some (.s o))
    ∧ (∀ c, ec.constraints = some c → c ≠ "" →
      lookupKey (resolve_template_vars persona thread_data file_categories ec)
        "constraints" = some (.s c)) := by
  obtain ⟨v2, hv⟩ := resolve_as_pipeline persona thread_data file_categories ec
  refine ⟨?_, ?_, ?_⟩
  · intro f h1 h2
    rw [hv, lookupKey_normalizeTaskList_ne _ _ (by decide),
      applyContextOverrides_focus v2 ec f h1 h2]
  · intro o h1 h2
    rw [hv, lookupKey_normalizeTaskList_ne _ _ (by decide),
      applyContextOverrides_output v2 ec o h1 h2]
  · intro c h1 h2
    rw [hv, lookupKey_normalizeTaskList_ne _ _ (by decide),
      applyContextOverrides_constraints v2 ec c h1 h2]

/-- Witness for C5 at a default persona and thread with all three CLI
overrides supplied. -/
theorem resolve_template_vars_override_spec_witness :
    lookupKey (resolve_template_vars {} {} [] ecW) "primary_focus"
      = some (.s "performance")
    ∧ lookupKey (resolve_template_vars {} {} [] ecW) "expected_outputs"
      = some (.s "a report")
    ∧ lookupKey (resolve_template_vars {} {} [] ecW) "constraints"
      = some (.s "no deps") :=
  ⟨(resolve_template_vars_override_spec {} {} [] ecW).1 "performance" rfl (by decide),
   (resolve_template_vars_override_spec {} {} [] ecW).2.1 "a report" rfl (by decide),
   (resolve_template_vars_override_spec {} {} [] ecW).2.2 "no deps" rfl (by decide)⟩

theorem lookupKey_append_self {α : Type} (m : List (String × α)) (k : String) (v : α)
    (h : lookupKey m k = none) : lookupKey (m ++ [(k, v)]) k = some v := by
  induction m with
  | nil => simp [lookupKey]
  | cons p rest ih =>
    obtain ⟨k0, v0⟩ := p
    by_cases h0 : k0 = k
    · simp [lookupKey, h0] at h
    · simp only [lookupKey, h0, if_false, List.cons_append] at h ⊢
      exact ih h

/-- C7 (code bug evidence): the persona cache is not immutable.  With a
persona whose document carries a `development_contexts` overlay for the
detected work area, one development-stage synthesis run grows the cached
`guidelines_do` and `risk_factors` lists in place (through the aliased
`.extend` calls), and a second run grows them again, so repeated loads of
the same name see different persona data. -/
theorem persona_cache_mutation :
    personaMut.guidelines_do = ["base guideline"]
    ∧ personaMut.risk_factors = ["base risk"]
    ∧ lookupKey (devRunCache []) "dev-p"
      = some { personaMut with
          guidelines_do := ["base guideline", "api guideline"],
          risk_factors := ["base risk", "api risk"] }
    ∧ lookupKey (devRunCache (devRunCache [])) "dev-p"
      = some { personaMut with
          guidelines_do := ["base guideline", "api guideline", "api guideline"],
          risk_factors := ["base risk", "api risk", "api risk"] } := by
  exact ⟨rfl, rfl, by decide, by decide⟩

/-- C6 counterexample: in the canonical stage-split package, the initial
branch loads the template named exactly `persona`, not
`persona ++ "-initial"`: with a store holding only
`senior-backend-dev-initial` the initial-stage synthesis fails naming the
missing plain template, and with a store holding only the plain
`senior-backend-dev` it succeeds. -/
theorem initial_template_name_counterexample :
    generate_comprehensive_snapshot storeInitialOnly hints0 [] {} [] []
        "senior-backend-dev" ecInitial
      = .error "Missing required template file: senior-backend-dev.yml"
    ∧ exceptOk (generate_comprehensive_snapshot storePlain hints0 [] {} [] []
        "senior-backend-dev" ecInitial) = true := by
  exact ⟨rfl, by decide⟩

/-- C6 amended: when the stage is `initial` (and comprehensive synthesis
is used), the dispatcher runs the initial branch, which ignores all file
and commit inputs, and loads the persona template named exactly
`persona`: with nothing cached, the synthesis succeeds precisely when the
store holds that plain name. -/
theorem initial_stage_amended (store : PersonaStore) (hints : DomainHints)
    (cache : LoaderState) (thread_data : ThreadData) (fp fp' : List String)
    (rc rc' : List CommitRec) (persona : String) (ec : EnhancedContext)
    (h : ec.stage = some "initial") :
    generate_comprehensive_snapshot store hints cache thread_data fp rc persona ec
      = generate_initial_stage_snapshot store cache thread_data ec persona true
    ∧ generate_comprehensive_snapshot store hints cache thread_data fp rc persona ec
      = generate_comprehensive_snapshot store hints cache thread_data fp' rc' persona ec
    ∧ (lookupKey cache persona = none →
        (exceptOk (generate_comprehensive_snapshot store hints cache thread_data
            fp rc persona ec) = true
          ↔ (store persona).isSome = true)) := by
  have hd : generate_comprehensive_snapshot store hints cache thread_data fp rc persona ec
      = generate_initial_stage_snapshot store cache thread_data ec persona true := by
    simp [generate_comprehensive_snapshot, h]
  have hd' : generate_comprehensive_snapshot store hints cache thread_data fp' rc' persona ec
      = generate_initial_stage_snapshot store cache thread_data ec persona true := by
    simp [generate_comprehensive_snapshot, h]
  refine ⟨hd, by rw [hd, hd'], ?_⟩
  intro hc
  rw [hd]
  unfold generate_initial_stage_snapshot
  rw [if_pos rfl]
  unfold synthesize_initial_operator_instructions_with_template
  cases hstore : store persona with
  | none =>
    have hl : load_persona store cache persona
        = .error ("Persona template " ++ persona ++ " not found") := by
      simp [load_persona, hc, hstore]
    simp [hl, exceptOk, hstore]
  | some cfg =>
    have hl : load_persona store cache persona = .ok (cfg, cache ++ [(persona, cfg)]) := by
      simp [load_persona, hc, hstore]
    have h2 : lookupKey (cache ++ [(persona, cfg)]) persona = some cfg :=
      lookupKey_append_self cache persona cfg hc
    have hl2 : load_persona store (cache ++ [(persona, cfg)]) persona
        = .ok (cfg, cache ++ [(persona, cfg)]) := by
      simp [load_persona, h2]
    simp [hl, synthesize_initial_decisions_constraints_with_template, hl2,
      exceptOk, hstore]

/-- Witness for C6 amended: with the plain template stored, the
initial-stage result does not depend on the file and commit inputs and
the synthesis succeeds. -/
theorem initial_stage_amended_witness :
    generate_comprehensive_snapshot storePlain hints0 [] {} ["x.py"] []
        "senior-backend-dev" ecInitial
      = generate_comprehensive_snapshot storePlain hints0 [] {} [] []
        "senior-backend-dev" ecInitial
    ∧ (exceptOk (generate_comprehensive_snapshot storePlain hints0 [] {} ["x.py"] []
          "senior-backend-dev" ecInitial) = true
        ↔ (storePlain "senior-backend-dev").isSome = true) :=
  ⟨(initial_stage_amended storePlain hints0 [] {} ["x.py"] [] [] []
      "senior-backend-dev" ecInitial rfl).2.1,
   (initial_stage_amended storePlain hints0 [] {} ["x.py"] [] [] []
      "senior-backend-dev" ecInitial rfl).2.2 (by decide)⟩

/-- C8: with the persona template absent everywhere, the canonical
development branch raises a `ValueError` naming the missing template and
produces no sections, while the legacy initial-branch operator
instructions substitute the hardcoded minimal persona and complete with a
rendered string. -/
theorem missing_template_asymmetry (store : PersonaStore) (hints : DomainHints)
    (cache : LoaderState) (thread_data : ThreadData) (fp : List String)
    (rc : List CommitRec) (persona : String) (ec : EnhancedContext)
    (hdev : lookupKey cache persona = none) (hstore : store persona = none)
    (hinitC : lookupKey cache (persona ++ "-initial") = none)
    (hinitS : store (persona ++ "-initial") = none) :
    generate_development_stage_snapshot store hints cache thread_data fp rc persona ec
      = .error ("Missing required template file: " ++ persona)
    ∧ synthesize_initial_operator_instructions store cache ec persona
      = (renderInitialOpInstr ec legacyFallbackPersona, cache) := by
  have hl1 : load_persona store cache persona
      = .error ("Persona template " ++ persona ++ " not found") := by
    simp [load_persona, hdev, hstore]
  have hl2 : load_persona store cache (persona ++ "-initial")
      = .error ("Persona template " ++ (persona ++ "-initial") ++ " not found") := by
    simp [load_persona, hinitC, hinitS]
  constructor
  · simp [generate_development_stage_snapshot, hl1]
  · simp [synthesize_initial_operator_instructions, hl2]

/-- Witness for C8 at an empty store and cache. -/
theorem missing_template_asymmetry_witness :
    generate_development_stage_snapshot store0 hints0 [] {} [] [] "nobody" {}
      = .error "Missing required template file: nobody"
    ∧ synthesize_initial_operator_instructions store0 [] {} "nobody"
      = (renderInitialOpInstr {} legacyFallbackPersona, []) :=
  missing_template_asymmetry store0 hints0 [] {} [] [] "nobody" {} rfl rfl rfl rfl

/-- C4 (code bug evidence): with the git binary unavailable and no
working-tree changes, `gather_comprehensive` propagates the
`FileNotFoundError` of its last-commit fallback instead of returning
empty results; a plain not-a-repository failure (non-zero exits
everywhere) is tolerated and yields empty results, and for every
environment whose `diff-tree` call does not hit the missing binary the
gathering returns normally. -/
theorem gather_comprehensive_error_model :
    gather_comprehensive envNoGit fs0 "t" 6000 = .error .fileNotFoundError
    ∧ gather_comprehensive envNoRepo fs0 "t" 6000 = .ok ([], [], [])
    ∧ ∀ (env : GitEnv) (fs : FS) (tid : String) (mt : Nat),
        exceptOk (gather_comprehensive env fs tid mt) = true
        ∨ env.diffTree = DiffTreeFate.noGit := by
  refine ⟨rfl, rfl, ?_⟩
  intro env fs tid mt
  by_cases hch : (build_smart_paths env fs (mt / 2)).1 = []
  · cases hdt : env.diffTree with
    | ok out =>
      left
      simp [gather_comprehensive, hch, hdt, files_changed_in_last_commit, exceptOk]
    | exitNonzero =>
      left
      simp [gather_comprehensive, hch, hdt, files_changed_in_last_commit, exceptOk]
    | noGit => right; rfl
  · left
    simp [gather_comprehensive, hch, exceptOk]

end Copidock
